import Mathlib

/-!
Verification of the disk-growth orchestration logic of ec2-macos-utils.

The development shallowly embeds the Go sources:
* `internal/diskutil/types` (disk.go, partitions.go): the data model and the
  pure computations `ParentDeviceID` and `AvailableDiskSpace`;
* `internal/diskutil` (diskutil.go, grow.go, mojave.go): the `DiskUtil`
  facade, the dry-run `readonlyWrapper`, `GrowContainer` and the Mojave
  physical-store backfill;
* `internal/cmd` (grow_container.go): `run`, `getTargetDiskInfo`,
  `validateDeviceID`;
* `internal/diskutil/identifier`: `ParseDiskID`;
* `pkg/diskutil` (decoder.go): the panic-catching plist decoder wrapper.

Go's `uint64` values are represented as `Nat` together with explicit
`% 2^64` reductions at each arithmetic operation (`add64`, `sub64`).
Go errors are represented by the inductive `GoErr`, whose `wrap`
constructor models `fmt.Errorf("...: %w", err)`; `errors.Is(err, ErrReadOnly)`
and `errors.As(err, &FreeSpaceError{})` become `GoErr.isReadOnly` and
`GoErr.asFreeSpace`.  Effectful facade calls are modelled by functions that
return their result paired with the list of shell-out `Event`s they perform,
so statements about "which external operations happen, in which order"
become statements about these event traces.  Go `nil` slices are modelled
as `[]` (the distinction is never observable in the embedded code paths).
-/

namespace EC2MacOSUtils

/-- The modulus of Go's `uint64` arithmetic: 2^64 (written as a numeral so
that `omega` can work with it). -/
def U64 : Nat := 18446744073709551616

theorem U64_eq_two_pow : U64 = 2 ^ 64 := by norm_num [U64]

/-- Go `uint64` addition: wraps modulo 2^64. -/
def add64 (a b : Nat) : Nat := (a + b) % U64

/-- Go `uint64` subtraction: wraps modulo 2^64. -/
def sub64 (a b : Nat) : Nat := (a + (U64 - b % U64)) % U64

/-- Model of a Go `error` value as used in this code base.
`msg` is `errors.New`/`fmt.Errorf` without `%w`; `wrap` is
`fmt.Errorf("context: %w", inner)`; `readOnly` is the sentinel
`diskutil.ErrReadOnly`; `freeSpace` is `diskutil.FreeSpaceError{freeSpaceBytes}`. -/
inductive GoErr where
  | msg (s : String)
  | wrap (s : String) (inner : GoErr)
  | readOnly
  | freeSpace (bytes : Nat)
deriving DecidableEq

/-- Models `errors.Is(err, ErrReadOnly)`: the unwrap chain reaches `ErrReadOnly`. -/
def GoErr.isReadOnly : GoErr → Bool
  | .readOnly => true
  | .wrap _ inner => inner.isReadOnly
  | _ => false

/-- Models `errors.As(err, &diskutil.FreeSpaceError{})`: the unwrap chain
contains a `FreeSpaceError`, whose `freeSpaceBytes` field is returned. -/
def GoErr.asFreeSpace : GoErr → Option Nat
  | .freeSpace n => some n
  | .wrap _ inner => inner.asFreeSpace
  | _ => none

/-- Character-by-character ASCII case-insensitive comparison. -/
def eqFoldChars : List Char → List Char → Bool
  | [], [] => true
  | a :: as, b :: bs => a.toLower == b.toLower && eqFoldChars as bs
  | _, _ => false

/-- Models Go `strings.EqualFold` (restricted to ASCII case folding, which
is all the code base ever compares: device identifiers and the word "root"). -/
def equalFold (a b : String) : Bool := eqFoldChars a.data b.data

/-- Models Go `strings.TrimSpace`: drop whitespace from both ends. -/
def trimSpace (s : String) : String :=
  ⟨((s.data.dropWhile Char.isWhitespace).reverse.dropWhile Char.isWhitespace).reverse⟩

/-! ## Data model: `internal/diskutil/types`

Field defaults are the Go zero values, so `{}` is the zero-valued record
produced by `&T{}` in Go. -/

namespace types

/-- `types.APFSPhysicalStore` (disk.go). -/
structure APFSPhysicalStore where
  DeviceIdentifier : String := ""

/-- `types.SmartDeviceInfo` (disk.go). -/
structure SmartDeviceInfo where
  AvailableSpare : Int := 0
  AvailableSpareThreshold : Int := 0
  ControllerBusyTime0 : Int := 0
  ControllerBusyTime1 : Int := 0
  DataUnitsRead0 : Int := 0
  DataUnitsRead1 : Int := 0
  DataUnitsWritten0 : Int := 0
  DataUnitsWritten1 : Int := 0
  HostReadCommands0 : Int := 0
  HostReadCommands1 : Int := 0
  HostWriteCommands0 : Int := 0
  HostWriteCommands1 : Int := 0
  MediaErrors0 : Int := 0
  MediaErrors1 : Int := 0
  NumErrorInfoLogEntries0 : Int := 0
  NumErrorInfoLogEntries1 : Int := 0
  PercentageUsed : Int := 0
  PowerCycles0 : Int := 0
  PowerCycles1 : Int := 0
  PowerOnHours0 : Int := 0
  PowerOnHours1 : Int := 0
  Temperature : Int := 0
  UnsafeShutdowns0 : Int := 0
  UnsafeShutdowns1 : Int := 0

/-- `types.ContainerInfo` (disk.go): APFS-specific fields embedded in `DiskInfo`. -/
structure ContainerInfo where
  APFSContainerFree : Nat := 0
  APFSContainerSize : Nat := 0
  APFSSnapshot : Bool := false
  APFSSnapshotName : String := ""
  APFSSnapshotUUID : String := ""
  APFSVolumeGroupID : String := ""
  BooterDeviceIdentifier : String := ""
  DiskUUID : String := ""
  Encryption : Bool := false
  EncryptionThisVolumeProper : Bool := false
  FileVault : Bool := false
  FilesystemName : String := ""
  FilesystemType : String := ""
  FilesystemUserVisibleName : String := ""
  Fusion : Bool := false
  Locked : Bool := false
  MacOSSystemAPFSEFIDriverVersion : Nat := 0
  RecoveryDeviceIdentifier : String := ""
  Sealed : String := ""
  VolumeAllocationBlockSize : Int := 0
  VolumeUUID : String := ""
deriving DecidableEq

/-- `types.DiskInfo` (disk.go).  The Go struct embeds `ContainerInfo`; the
embedding is modelled as the field `ContainerInfo`, with the promoted field
access `disk.FilesystemType` written `disk.ContainerInfo.FilesystemType`. -/
structure DiskInfo where
  ContainerInfo : ContainerInfo := {}
  AESHardware : Bool := false
  APFSContainerReference : String := ""
  APFSPhysicalStores : List APFSPhysicalStore := []
  Bootable : Bool := false
  BusProtocol : String := ""
  CanBeMadeBootable : Bool := false
  CanBeMadeBootableRequiresDestroy : Bool := false
  Content : String := ""
  DeviceBlockSize : Int := 0
  DeviceIdentifier : String := ""
  DeviceNode : String := ""
  DeviceTreePath : String := ""
  Ejectable : Bool := false
  EjectableMediaAutomaticUnderSoftwareControl : Bool := false
  EjectableOnly : Bool := false
  FreeSpace : Nat := 0
  GlobalPermissionsEnabled : Bool := false
  IOKitSize : Nat := 0
  IORegistryEntryName : String := ""
  Internal : Bool := false
  LowLevelFormatSupported : Bool := false
  MediaName : String := ""
  MediaType : String := ""
  MountPoint : String := ""
  OS9DriversInstalled : Bool := false
  OSInternalMedia : Bool := false
  ParentWholeDisk : String := ""
  PartitionMapPartition : Bool := false
  RAIDMaster : Bool := false
  RAIDSlice : Bool := false
  Removable : Bool := false
  RemovableMedia : Bool := false
  RemovableMediaOrExternalDevice : Bool := false
  SMARTDeviceSpecificKeysMayVaryNotGuaranteed : Option SmartDeviceInfo := none
  SMARTStatus : String := ""
  Size : Nat := 0
  SolidState : Bool := false
  SupportsGlobalPermissionsDisable : Bool := false
  SystemImage : Bool := false
  TotalSize : Nat := 0
  VirtualOrPhysical : String := ""
  VolumeName : String := ""
  VolumeSize : Nat := 0
  WholeDisk : Bool := false
  Writable : Bool := false
  WritableMedia : Bool := false
  WritableVolume : Bool := false

/-- `types.APFSPhysicalStoreID` (partitions.go). -/
structure APFSPhysicalStoreID where
  DeviceIdentifier : String := ""

/-- `types.Snapshot` (partitions.go). -/
structure Snapshot where
  Sealed : String := ""
  SnapshotBSD : String := ""
  SnapshotMountPoint : String := ""
  SnapshotName : String := ""
  SnapshotUUID : String := ""

/-- `types.APFSVolume` (partitions.go). -/
structure APFSVolume where
  DeviceIdentifier : String := ""
  DiskUUID : String := ""
  MountPoint : String := ""
  MountedSnapshots : List Snapshot := []
  OSInternal : Bool := false
  Size : Nat := 0
  VolumeName : String := ""
  VolumeUUID : String := ""

/-- `types.Partition` (partitions.go). -/
structure Partition where
  Content : String := ""
  DeviceIdentifier : String := ""
  DiskUUID : String := ""
  Size : Nat := 0
  VolumeName : String := ""
  VolumeUUID : String := ""

/-- `types.DiskPart` (partitions.go). -/
structure DiskPart where
  APFSPhysicalStores : List APFSPhysicalStoreID := []
  APFSVolumes : List APFSVolume := []
  Content : String := ""
  DeviceIdentifier : String := ""
  OSInternal : Bool := false
  Partitions : List Partition := []
  Size : Nat := 0

/-- `types.SystemPartitions` (partitions.go). -/
structure SystemPartitions where
  AllDisks : List String := []
  AllDisksAndPartitions : List DiskPart := []
  VolumesFromDisks : List String := []
  WholeDisks : List String := []

/-- `SystemPartitions.AvailableDiskSpace` (internal/diskutil/types/partitions.go):
find the first `DiskPart` whose identifier matches `id` case-insensitively,
sum its partitions' sizes (`uint64` addition) and subtract the sum from the
disk's size (`uint64` subtraction).  Returns the Go pair `(uint64, error)`. -/
def SystemPartitions.AvailableDiskSpace (p : SystemPartitions) (id : String) :
    Nat × Option GoErr :=
  match p.AllDisksAndPartitions.find? (fun disk => equalFold disk.DeviceIdentifier id) with
  | none => (0, some (.msg ("no partition information found for ID [" ++ id ++ "]")))
  | some target =>
    let allocated := target.Partitions.foldl (fun acc part => add64 acc part.Size) 0
    (sub64 target.Size allocated, none)

/-- The `pkg/diskutil/types/partitions.go` revision of `AvailableDiskSpace`:
identical lookup, but the partition sizes are subtracted one by one instead
of being summed first.  (Named with a `Pkg` suffix to distinguish it from the
internal-package revision above.) -/
def SystemPartitions.AvailableDiskSpacePkg (p : SystemPartitions) (id : String) :
    Nat × Option GoErr :=
  match p.AllDisksAndPartitions.find? (fun disk => equalFold disk.DeviceIdentifier id) with
  | none => (0, some (.msg ("no partition information found for ID [" ++ id ++ "]")))
  | some diskPart =>
    (diskPart.Partitions.foldl (fun size part => sub64 size part.Size) diskPart.Size, none)

/-! ### `ParentDeviceID` and the `disk[0-9]+` regular expression -/

/-- One match attempt of Go's `regexp.MustCompile("disk[0-9]+").FindString`
at the head of the character list: the literal `disk` followed by a maximal
nonempty run of ASCII digits. -/
def matchDiskAt : List Char → Option (List Char)
  | 'd' :: 'i' :: 's' :: 'k' :: rest =>
    let ds := rest.takeWhile Char.isDigit
    if ds.isEmpty then none else some (['d', 'i', 's', 'k'] ++ ds)
  | _ => none

/-- Leftmost-match scan for `disk[0-9]+`, trying every start position from
the left (Go's regexp returns the leftmost match; the digit run is greedy). -/
def findDiskIDAux : List Char → Option (List Char)
  | [] => none
  | c :: rest =>
    match matchDiskAt (c :: rest) with
    | some m => some m
    | none => findDiskIDAux rest

/-- Model of `regexp.MustCompile("disk[0-9]+").FindString s`, returning
`none` where Go returns the empty string (no match). -/
def findDiskID (s : String) : Option String :=
  (findDiskIDAux s.data).map fun l => ⟨l⟩

/-- `DiskInfo.ParentDeviceID` (internal/diskutil/types/disk.go): requires
exactly one APFS physical store and extracts the `disk[0-9]+` portion of its
device identifier.  The Go `nil`-slice check and the `len != 1` check both
fail for an empty store list; they are collapsed into the `[]` case. -/
def DiskInfo.ParentDeviceID (d : DiskInfo) : Except GoErr String :=
  match d.APFSPhysicalStores with
  | [] => .error (.msg "no physical stores found in disk")
  | [store] =>
    match findDiskID store.DeviceIdentifier with
    | some id => .ok id
    | none => .error (.msg ("physical store [" ++ store.DeviceIdentifier ++
        "] does not contain the expected expression \"disk[0-9]+\""))
  | stores => .error (.msg ("expected 1 physical store but got [" ++
      toString stores.length ++ "]"))

/-- Modelled from the spec: the body of `types.DiskInfo.IsPhysical` is not
present in the source tree (only its call site in `GrowContainer` is).
Spec §4.4 step 1: "If `container` is already a physical disk
(virtual-or-physical tag = "Physical"), use it directly as `phy`." -/
def DiskInfo.IsPhysical (d : DiskInfo) : Bool :=
  d.VirtualOrPhysical == "Physical"

end types

/-! ## The `DiskUtil` facade (`internal/diskutil/diskutil.go`)

A facade method is modelled as a pure function returning its Go result
together with the trace of shell-out events that reach the external
`diskutil` tool during the call.  `args = none` models the Go `nil` slice
passed to `List`. -/

/-- One invocation of the external `diskutil` tool. -/
inductive Event where
  | info (id : String)
  | list (args : Option (List String))
  | repairDisk (id : String)
  | resizeContainer (id : String) (size : String)
deriving DecidableEq

/-- The four kinds of facade operations, for ordering statements. -/
inductive EventKind where
  | info
  | list
  | repairDisk
  | resizeContainer
deriving DecidableEq

def Event.kind : Event → EventKind
  | .info _ => .info
  | .list _ => .list
  | .repairDisk _ => .repairDisk
  | .resizeContainer _ _ => .resizeContainer

def Event.isRepair : Event → Bool
  | .repairDisk _ => true
  | _ => false

def Event.isResize : Event → Bool
  | .resizeContainer _ _ => true
  | _ => false

/-- `diskutil.DiskUtil` (internal/diskutil/diskutil.go): the facade interface
with `Info`, `List`, `RepairDisk` and `ResizeContainer` (the latter from the
embedded `APFS` interface). -/
structure DiskUtil where
  info : String → Except GoErr types.DiskInfo × List Event
  list : Option (List String) → Except GoErr types.SystemPartitions × List Event
  repairDisk : String → Except GoErr String × List Event
  resizeContainer : String → String → Except GoErr String × List Event

/-- The outcomes the external `diskutil` tool would produce for each
operation.  `DiskUtilityCmd` (internal/diskutil/utility.go) together with a
version-specific decoder is a fresh shell-out + decode per call; it is
modelled by this outcome map. -/
structure Oracle where
  infoResult : String → Except GoErr types.DiskInfo
  listResult : Option (List String) → Except GoErr types.SystemPartitions
  repairResult : String → Except GoErr String
  resizeResult : String → String → Except GoErr String

/-- The base facade over an `Oracle`: each call performs exactly one
shell-out (its own event) and returns the oracle's outcome for it. -/
def Oracle.toUtil (o : Oracle) : DiskUtil where
  info id := (o.infoResult id, [Event.info id])
  list args := (o.listResult args, [Event.list args])
  repairDisk id := (o.repairResult id, [Event.repairDisk id])
  resizeContainer id size := (o.resizeResult id size, [Event.resizeContainer id size])

/-- `diskutil.Dryrun` / `readonlyWrapper` (internal/diskutil/diskutil.go):
`Info` and `List` forward to the wrapped implementation; `RepairDisk` and
`ResizeContainer` are replaced by no-ops that return an error wrapping
`ErrReadOnly` and perform no underlying operation (empty event trace). -/
def Dryrun (impl : DiskUtil) : DiskUtil where
  info id := impl.info id
  list args := impl.list args
  repairDisk _ := (.error (.wrap "skip repair disk" .readOnly), [])
  resizeContainer _ _ := (.error (.wrap "skip resize container" .readOnly), [])

/-! ## The growth orchestrator (`internal/diskutil/grow.go`) -/

/-- `minimumGrowFreeSpace` (internal/diskutil/diskutil.go): the minimum
number of free bytes required to attempt a resize. -/
def minimumGrowFreeSpace : Nat := 1000000

/-- `canAPFSResize` (grow.go): a disk is resizable if its embedded
`ContainerInfo` is non-zero with `FilesystemType == "apfs"`, or it has a
non-empty APFS container reference and at least one APFS physical store. -/
def canAPFSResize (disk : Option types.DiskInfo) : Except GoErr Unit :=
  match disk with
  | none => .error (.msg "no disk information")
  | some disk =>
    if disk.ContainerInfo ≠ ({} : types.ContainerInfo) ∧
        disk.ContainerInfo.FilesystemType = "apfs" then
      .ok ()
    else if disk.APFSContainerReference ≠ "" ∧ 0 < disk.APFSPhysicalStores.length then
      .ok ()
    else
      .error (.msg "disk is not apfs")

/-- The physical-disk resolution block of `GrowContainer`
(grow.go lines 34-42), factored out as a definition so that the theorems can
refer to its result: if the container is already physical it is used
directly, otherwise `Info(container.ParentWholeDisk)` is fetched. -/
def resolvePhy (u : DiskUtil) (container : types.DiskInfo) :
    Except GoErr types.DiskInfo × List Event :=
  if container.IsPhysical then (.ok container, [])
  else
    match u.info container.ParentWholeDisk with
    | (.ok parent, evs) => (.ok parent, evs)
    | (.error err, evs) => (.error (.wrap "unable to determine physical disk" err), evs)

/-- `repairParentDisk` (grow.go): resolve the parent device identifier and
invoke `RepairDisk` on it; an `ErrReadOnly` result from `RepairDisk` is
logged and treated as success.  The Go function returns `(message, err)`
where the message is only logged; it is modelled as `Except` (the message on
the error path is dropped). -/
def repairParentDisk (u : DiskUtil) (disk : types.DiskInfo) :
    Except GoErr String × List Event :=
  match disk.ParentDeviceID with
  | .error err => (.error err, [])
  | .ok parentDiskID =>
    match u.repairDisk parentDiskID with
    | (.ok out, evs) => (.ok out, evs)
    | (.error err, evs) =>
      if err.isReadOnly then (.ok "", evs) else (.error err, evs)

/-- `getDiskFreeSpace` (grow.go): fetch `List(nil)`, resolve the parent
device identifier, and compute the free space via `AvailableDiskSpace`. -/
def getDiskFreeSpace (u : DiskUtil) (disk : types.DiskInfo) :
    Except GoErr Nat × List Event :=
  match u.list none with
  | (.error err, evs) => (.error err, evs)
  | (.ok partitions, evs) =>
    match disk.ParentDeviceID with
    | .error err => (.error err, evs)
    | .ok parentDiskID =>
      match partitions.AvailableDiskSpace parentDiskID with
      | (size, none) => (.ok size, evs)
      | (_, some err) => (.error err, evs)

/-- `GrowContainer` (grow.go): validate the container, resolve its physical
disk, repair the parent disk, compute free space, gate on
`minimumGrowFreeSpace`, and resize to maximum (`"0"`); an `ErrReadOnly`
result from `ResizeContainer` is logged and treated as success. -/
def GrowContainer (u : DiskUtil) (container : Option types.DiskInfo) :
    Except GoErr Unit × List Event :=
  match container with
  | none => (.error (.msg "unable to resize nil container"), [])
  | some container =>
    match canAPFSResize (some container) with
    | .error err => (.error (.wrap "unable to resize container" err), [])
    | .ok _ =>
      match resolvePhy u container with
      | (.error err, evs1) => (.error err, evs1)
      | (.ok phy, evs1) =>
        match repairParentDisk u phy with
        | (.error err, evs2) =>
          (.error (.wrap "cannot update free space on disk" err), evs1 ++ evs2)
        | (.ok _, evs2) =>
          match getDiskFreeSpace u phy with
          | (.error err, evs3) =>
            (.error (.wrap "cannot determine available space on disk" err),
              evs1 ++ evs2 ++ evs3)
          | (.ok totalFree, evs3) =>
            if totalFree < minimumGrowFreeSpace then
              (.error (.wrap "not enough space to resize container" (.freeSpace totalFree)),
                evs1 ++ evs2 ++ evs3)
            else
              match u.resizeContainer phy.DeviceIdentifier "0" with
              | (.ok _, evs4) => (.ok (), evs1 ++ evs2 ++ evs3 ++ evs4)
              | (.error err, evs4) =>
                if err.isReadOnly then (.ok (), evs1 ++ evs2 ++ evs3 ++ evs4)
                else (.error err, evs1 ++ evs2 ++ evs3 ++ evs4)

/-! ## The target resolver and command runner (`internal/cmd/grow_container.go`) -/

namespace identifier

/-- `identifier.ParseDiskID` (internal/diskutil/identifier/disk.go): empty or
all-whitespace input yields `""`; otherwise the leftmost `disk[0-9]+` match
(Go's `FindString` returns `""` when there is no match). -/
def ParseDiskID (s : String) : String :=
  if trimSpace s == "" then ""
  else
    match types.findDiskID s with
    | some id => id
    | none => ""

end identifier

namespace cmd

/-- `validateDeviceID` (internal/cmd/grow_container.go): the id must be
non-blank, contain a `disk[0-9]+` device identifier, and that identifier
must be case-insensitively present in the listing's `AllDisks`. -/
def validateDeviceID (id : String) (partitions : types.SystemPartitions) :
    Except GoErr Unit :=
  if trimSpace id == "" then .error (.msg "empty device id")
  else
    let deviceID := identifier.ParseDiskID id
    if deviceID == "" then
      .error (.msg "id does not match the expected device identifier format")
    else if partitions.AllDisks.any (fun name => equalFold name deviceID) then
      .ok ()
    else
      .error (.msg "invalid device identifier")

/-- `getTargetDiskInfo` (internal/cmd/grow_container.go): `"root"` (case
insensitive) resolves directly via `Info("/")`; any other target is
validated against `List(nil)` before `Info(target)` is fetched. -/
def getTargetDiskInfo (du : DiskUtil) (target : String) :
    Except GoErr types.DiskInfo × List Event :=
  if equalFold "root" target then du.info "/"
  else
    match du.list none with
    | (.error err, evs) => (.error (.wrap "cannot list partitions" err), evs)
    | (.ok partitions, evs) =>
      match validateDeviceID target partitions with
      | .error err => (.error (.wrap "invalid target" err), evs)
      | .ok _ =>
        match du.info target with
        | (r, evs2) => (r, evs ++ evs2)

/-- `run` (internal/cmd/grow_container.go): resolve the target, grow it,
treat a `FreeSpaceError` outcome from `GrowContainer` as success (exit 0),
and finally re-fetch the updated disk information. -/
def run (utility : DiskUtil) (id : String) : Except GoErr Unit × List Event :=
  match getTargetDiskInfo utility id with
  | (.error err, evs) => (.error (.wrap "cannot grow container" err), evs)
  | (.ok di, evs1) =>
    match GrowContainer utility (some di) with
    | (.error err, evs2) =>
      if (err.asFreeSpace).isSome then (.ok (), evs1 ++ evs2)
      else (.error err, evs1 ++ evs2)
    | (.ok _, evs2) =>
      match getTargetDiskInfo utility di.ParentWholeDisk with
      | (.error err, evs3) => (.error err, evs1 ++ evs2 ++ evs3)
      | (.ok _, evs3) => (.ok (), evs1 ++ evs2 ++ evs3)

end cmd

/-! ## The Mojave physical-store backfill (`internal/diskutil/mojave.go`)

`fetchPhysicalStore` shells out to the human-readable `diskutil list <id>`
and regex-scans its output; it is modelled as an outcome map
`fetch : String → Except GoErr String` from device identifier to the parsed
physical-store identifier. -/

/-- `isAPFSVolume` (mojave.go): the `DiskPart` has an `APFSVolumes` entry
(Go checks the slice against `nil`; modelled as non-emptiness). -/
def isAPFSVolume (part : types.DiskPart) : Bool :=
  !part.APFSVolumes.isEmpty

/-- `isAPFSMedia` (mojave.go): the disk is an APFS container or volume. -/
def isAPFSMedia (disk : types.DiskInfo) : Bool :=
  disk.ContainerInfo.FilesystemType == "apfs" || disk.IORegistryEntryName == "AppleAPFSMedia"

/-- The loop body of `updatePhysicalStores` (mojave.go): walk the
`AllDisksAndPartitions` list, appending the fetched physical store to each
APFS entry; the first fetch failure stops the walk, leaving earlier entries
updated and later ones untouched. -/
def updatePhysicalStoresAux (fetch : String → Except GoErr String) :
    List types.DiskPart → List types.DiskPart × Option GoErr
  | [] => ([], none)
  | part :: rest =>
    if isAPFSVolume part then
      match fetch part.DeviceIdentifier with
      | .error err => (part :: rest, some err)
      | .ok storeID =>
        let updated := { part with
          APFSPhysicalStores := part.APFSPhysicalStores ++ [{ DeviceIdentifier := storeID }] }
        match updatePhysicalStoresAux fetch rest with
        | (rest2, err) => (updated :: rest2, err)
    else
      match updatePhysicalStoresAux fetch rest with
      | (rest2, err) => (part :: rest2, err)

/-- `updatePhysicalStores` (mojave.go): in-place update of a decoded
`SystemPartitions`; returns the (possibly partially) updated record and the
first fetch error, if any. -/
def updatePhysicalStores (fetch : String → Except GoErr String)
    (partitions : types.SystemPartitions) : types.SystemPartitions × Option GoErr :=
  match updatePhysicalStoresAux fetch partitions.AllDisksAndPartitions with
  | (parts2, err) => ({ partitions with AllDisksAndPartitions := parts2 }, err)

/-- `updatePhysicalStore` (mojave.go): the `DiskInfo` analogue. -/
def updatePhysicalStore (fetch : String → Except GoErr String)
    (disk : types.DiskInfo) : types.DiskInfo × Option GoErr :=
  if isAPFSMedia disk then
    match fetch disk.DeviceIdentifier with
    | .error err => (disk, some err)
    | .ok storeID =>
      ({ disk with
          APFSPhysicalStores := disk.APFSPhysicalStores ++ [{ DeviceIdentifier := storeID }] },
        none)
  else (disk, none)

/-- `diskutilMojave.List` (internal/diskutil/diskutil.go): decode the primary
structured listing (outcome `primary`), then backfill physical stores; a
backfill failure is returned together with the already-decoded record.  The
Go pair `(*SystemPartitions, error)` is modelled as `Option × Option` so
that the `nil` record is observable. -/
def diskutilMojaveList (primary : Except GoErr types.SystemPartitions)
    (fetch : String → Except GoErr String) :
    Option types.SystemPartitions × Option GoErr :=
  match primary with
  | .error err => (none, some err)
  | .ok partitions =>
    match updatePhysicalStores fetch partitions with
    | (parts2, some err) => (some parts2, some err)
    | (parts2, none) => (some parts2, none)

/-- `diskutilMojave.Info` (internal/diskutil/diskutil.go). -/
def diskutilMojaveInfo (primary : Except GoErr types.DiskInfo)
    (fetch : String → Except GoErr String) :
    Option types.DiskInfo × Option GoErr :=
  match primary with
  | .error err => (none, some err)
  | .ok disk =>
    match updatePhysicalStore fetch disk with
    | (disk2, some err) => (some disk2, some err)
    | (disk2, none) => (some disk2, none)

/-- `diskutilCatalina.List` (and the Big Sur through Sequoia variants, which
are textually identical): the decoded primary listing is returned as-is;
there is no backfill step. -/
def diskutilCatalinaList (primary : Except GoErr types.SystemPartitions) :
    Option types.SystemPartitions × Option GoErr :=
  match primary with
  | .error err => (none, some err)
  | .ok partitions => (some partitions, none)

/-- `diskutilCatalina.Info` (and the newer variants). -/
def diskutilCatalinaInfo (primary : Except GoErr types.DiskInfo) :
    Option types.DiskInfo × Option GoErr :=
  match primary with
  | .error err => (none, some err)
  | .ok disk => (some disk, none)

/-! ## The plist decoder wrapper (`pkg/diskutil/decoder.go`)

The underlying parser is the third-party `howett.net/plist` library, which
is not part of this repository.  A run of `plist.Decoder.Decode` on a given
input is modelled by its outcome: it either fills the record (starting from
the zero value) and succeeds, returns an error, or panics.  The spec's
facts about the library (§4.2: empty input decodes to the zero-valued
record; malformed input fails) appear as hypotheses on this outcome map. -/

inductive PlistOutcome (α : Type) where
  | ok (val : α)
  | err (msg : String)
  | panicked (msg : String)

/-- `PlistDecoder.DecodeList` (pkg/diskutil/decoder.go): run the underlying
decode; convert a panic into a decode error with a `nil` record; wrap a
decode error with a `nil` record; otherwise return the decoded record. -/
def PlistDecoderDecodeList (decode : String → PlistOutcome types.SystemPartitions)
    (input : String) : Option types.SystemPartitions × Option GoErr :=
  match decode input with
  | .panicked msg =>
    (none, some (.msg ("diskutil: panic occured while decoding: " ++ msg)))
  | .err msg =>
    (none, some (.msg ("diskutil: failed to decode diskutil list disks output: " ++ msg)))
  | .ok partitions => (some partitions, none)

/-- `PlistDecoder.DecodeInfo` (pkg/diskutil/decoder.go). -/
def PlistDecoderDecodeInfo (decode : String → PlistOutcome types.DiskInfo)
    (input : String) : Option types.DiskInfo × Option GoErr :=
  match decode input with
  | .panicked msg =>
    (none, some (.msg ("diskutil: panic occured while decoding: " ++ msg)))
  | .err msg =>
    (none, some (.msg ("diskutil: failed to decode diskutil disk info output: " ++ msg)))
  | .ok disk => (some disk, none)

/-! ## Concrete sample data used by counterexamples and witnesses -/

/-- The `DiskPart` of spec §8 P3: disk "disk1" of size 2,000,000 with two
500,000-byte partitions. -/
def sampleDiskPart : types.DiskPart :=
  { DeviceIdentifier := "disk1"
    Size := 2000000
    Partitions := [{ DeviceIdentifier := "disk1s1", Size := 500000 },
                   { DeviceIdentifier := "disk1s2", Size := 500000 }] }

/-- A listing containing `sampleDiskPart`. -/
def sampleParts : types.SystemPartitions :=
  { AllDisks := ["disk1"], AllDisksAndPartitions := [sampleDiskPart] }

/-- A listing whose only disk reports size 0 while carrying a 1-byte
partition: the partition sizes sum to more than the disk size. -/
def overflowParts : types.SystemPartitions :=
  { AllDisksAndPartitions :=
      [{ DeviceIdentifier := "disk0", Size := 0, Partitions := [{ Size := 1 }] }] }

/-- A disk reporting size 0 while carrying a partition of size 2^64 - 5:
the partition sizes sum to more than the disk size, and the `uint64`
deficit is within 999,999 of 2^64, so the wrapped free-space value lands
below the grow threshold. -/
def nearWrapDiskPart : types.DiskPart :=
  { DeviceIdentifier := "disk0", Size := 0,
    Partitions := [{ Size := 18446744073709551611 }] }

/-- A listing containing only `nearWrapDiskPart`. -/
def nearWrapParts : types.SystemPartitions :=
  { AllDisksAndPartitions := [nearWrapDiskPart] }

/-- A disk reporting size 0 while carrying a partition of size 2^63: the
wrapped free-space value is 2^63, far above the grow threshold. -/
def hugeWrapDiskPart : types.DiskPart :=
  { DeviceIdentifier := "disk0", Size := 0,
    Partitions := [{ Size := 9223372036854775808 }] }

/-- A listing containing only `hugeWrapDiskPart`. -/
def hugeWrapParts : types.SystemPartitions :=
  { AllDisks := ["disk0", "disk1"]
    AllDisksAndPartitions := [hugeWrapDiskPart] }

/-- The container of the spec's §8 end-to-end scenario: an APFS container
"disk1" whose single physical store is "disk0s2".  It is marked "Physical"
so the orchestrator uses it directly. -/
def sampleContainer : types.DiskInfo :=
  { ContainerInfo := { FilesystemType := "apfs" }
    DeviceIdentifier := "disk1"
    APFSContainerReference := "disk1"
    APFSPhysicalStores := [{ DeviceIdentifier := "disk0s2" }]
    ParentWholeDisk := "disk0"
    VirtualOrPhysical := "Physical" }

/-- The listing of the spec's §8 end-to-end scenario: "disk0" sized
3,000,000 with two 500,000-byte partitions (free = 2,000,000 ≥ threshold). -/
def sampleE2EParts : types.SystemPartitions :=
  { AllDisks := ["disk0", "disk1"]
    AllDisksAndPartitions :=
      [{ DeviceIdentifier := "disk0", Size := 3000000,
         Partitions := [{ Size := 500000 }, { Size := 500000 }] }] }

/-- The listing of the spec's §8 quiet-exit scenario: "disk0" sized
1,000,000 with one 500,000-byte partition (free = 500,000 < threshold). -/
def sampleSmallParts : types.SystemPartitions :=
  { AllDisks := ["disk0", "disk1"]
    AllDisksAndPartitions :=
      [{ DeviceIdentifier := "disk0", Size := 1000000,
         Partitions := [{ Size := 500000 }] }] }

/-- External-tool outcomes for the end-to-end scenario: every operation
succeeds and `List` reports `sampleE2EParts`. -/
def sampleOracle : Oracle :=
  { infoResult := fun _ => .ok sampleContainer
    listResult := fun _ => .ok sampleE2EParts
    repairResult := fun _ => .ok ""
    resizeResult := fun _ _ => .ok "" }

/-- External-tool outcomes for the quiet-exit scenario: every operation
succeeds but `List` reports `sampleSmallParts`, leaving too little free
space to grow. -/
def sampleSmallOracle : Oracle :=
  { infoResult := fun _ => .ok sampleContainer
    listResult := fun _ => .ok sampleSmallParts
    repairResult := fun _ => .ok ""
    resizeResult := fun _ _ => .ok "" }

/-- The source test's "more than 1 APFS physical store" case. -/
def twoStoreDisk : types.DiskInfo :=
  { APFSPhysicalStores := [{ DeviceIdentifier := "disk0s2" },
                          { DeviceIdentifier := "disk1s2" }]
    DeviceIdentifier := "disk2" }

/-- The source test's "physical store without the expected device
identifier format" case. -/
def badStoreDisk : types.DiskInfo :=
  { APFSPhysicalStores := [{ DeviceIdentifier := "device0s2" }]
    DeviceIdentifier := "disk2" }

/-- External-tool outcomes whose listing is `hugeWrapParts`. -/
def hugeWrapOracle : Oracle :=
  { infoResult := fun _ => .ok sampleContainer
    listResult := fun _ => .ok hugeWrapParts
    repairResult := fun _ => .ok ""
    resizeResult := fun _ _ => .ok "" }

/-- A sample underlying-parser outcome map for `SystemPartitions`,
consistent with the spec's description of the plist library: empty input
fills nothing (zero record), the string "panic" makes the parser panic,
anything else is malformed. -/
def plistDecodeListModel : String → PlistOutcome types.SystemPartitions :=
  fun s =>
    if s == "" then .ok {}
    else if s == "panic" then .panicked "boom"
    else .err "invalid property list"

/-- The `DiskInfo` analogue of `plistDecodeListModel`. -/
def plistDecodeInfoModel : String → PlistOutcome types.DiskInfo :=
  fun s =>
    if s == "" then .ok {}
    else if s == "panic" then .panicked "boom"
    else .err "invalid property list"

/-- A listing with one APFS entry (non-empty `APFSVolumes`), so the Mojave
backfill attempts a fetch for it. -/
def mojaveParts : types.SystemPartitions :=
  { AllDisks := ["disk1"]
    AllDisksAndPartitions :=
      [{ DeviceIdentifier := "disk1",
         APFSVolumes := [{ DeviceIdentifier := "disk1s1" }] }] }

/-- A physical-store fetch that always fails (the external listing had no
"Physical Store" token). -/
def fetchFail : String → Except GoErr String :=
  fun _ => .error (.msg "physical store not found")

/-- External-tool outcomes whose `List` shell-out fails. -/
def failListOracle : Oracle :=
  { infoResult := fun _ => .ok sampleContainer
    listResult := fun _ => .error (.msg "list failed")
    repairResult := fun _ => .ok ""
    resizeResult := fun _ _ => .ok "" }

/-! ## Helper lemmas: `uint64` arithmetic -/

theorem U64_pos : 0 < U64 := by norm_num [U64]

theorem add64_lt (a b : Nat) : add64 a b < U64 :=
  Nat.mod_lt _ U64_pos

theorem sub64_lt (a b : Nat) : sub64 a b < U64 :=
  Nat.mod_lt _ U64_pos

/-- The running `uint64` sum agrees with the mathematical sum modulo 2^64. -/
theorem foldl_add64_mod (l : List Nat) :
    ∀ init, (l.foldl add64 init) % U64 = (init + l.sum) % U64 := by
  induction l with
  | nil => intro init; simp
  | cons a l ih =>
    intro init
    rw [List.foldl_cons, ih (add64 init a), List.sum_cons]
    simp only [add64]
    rw [Nat.mod_add_mod]
    ring_nf

theorem foldl_add64_lt (l : List Nat) :
    ∀ init, init < U64 → l.foldl add64 init < U64 := by
  induction l with
  | nil => intro init h; simpa using h
  | cons a l ih =>
    intro init _
    rw [List.foldl_cons]
    exact ih (add64 init a) (add64_lt init a)

/-- When nothing overflows, the running `uint64` sum is the exact sum. -/
theorem foldl_add64_eq_sum (l : List Nat) :
    ∀ init, init + l.sum < U64 → l.foldl add64 init = init + l.sum := by
  induction l with
  | nil => intro init _; simp
  | cons a l ih =>
    intro init h
    rw [List.sum_cons] at h
    rw [List.foldl_cons]
    have ha : add64 init a = init + a := by
      have : init + a < U64 := by omega
      simp [add64, Nat.mod_eq_of_lt this]
    rw [ha, ih (init + a) (by omega), List.sum_cons]
    omega

/-- When the subtrahend fits underneath, `uint64` subtraction is exact. -/
theorem sub64_exact (a b : Nat) (hb : b ≤ a) (ha : a < U64) : sub64 a b = a - b := by
  simp only [sub64, U64] at *
  omega

/-- `uint64` subtraction is integer subtraction reduced modulo 2^64. -/
theorem sub64_cast (a b : Nat) :
    ((sub64 a b : Nat) : Int) = ((a : Int) - (b : Int)) % ((U64 : Nat) : Int) := by
  simp only [sub64, U64]
  omega

/-- Subtracting a list of `uint64` values one by one is the same as
subtracting their running `uint64` sum, provided the start value is a valid
`uint64`. -/
theorem foldl_sub64_eq (l : List Nat) :
    ∀ init, init < U64 → l.foldl sub64 init = sub64 init (l.foldl add64 0) := by
  induction l with
  | nil =>
    intro init h
    simp [sub64, Nat.mod_eq_of_lt h]
  | cons a l ih =>
    intro init hinit
    rw [List.foldl_cons, List.foldl_cons, ih (sub64 init a) (sub64_lt init a)]
    have hB := foldl_add64_mod l 0
    have hC := foldl_add64_mod l (add64 0 a)
    have hBlt := foldl_add64_lt l 0 U64_pos
    have hClt := foldl_add64_lt l (add64 0 a) (add64_lt 0 a)
    revert hB hC hBlt hClt
    generalize l.foldl add64 0 = B
    generalize l.foldl add64 (add64 0 a) = C
    generalize l.sum = s
    intro hB hC hBlt hClt
    simp only [sub64, add64, U64] at *
    omega

/-- The `pkg/diskutil/types` revision of `AvailableDiskSpace` (sequential
subtraction) agrees with the `internal/diskutil/types` revision (sum then
subtract) whenever the disk sizes are valid `uint64` values. -/
theorem availableDiskSpacePkg_eq (p : types.SystemPartitions) (id : String)
    (h : ∀ dp ∈ p.AllDisksAndPartitions, dp.Size < U64) :
    p.AvailableDiskSpacePkg id = p.AvailableDiskSpace id := by
  unfold types.SystemPartitions.AvailableDiskSpacePkg types.SystemPartitions.AvailableDiskSpace
  cases hfind : p.AllDisksAndPartitions.find? (fun d => equalFold d.DeviceIdentifier id) with
  | none => rfl
  | some dp =>
    have hmem := List.mem_of_find?_eq_some hfind
    have hsz := h dp hmem
    have h1 : dp.Partitions.foldl (fun size part => sub64 size part.Size) dp.Size =
        (dp.Partitions.map types.Partition.Size).foldl sub64 dp.Size := by
      rw [List.foldl_map]
    have h2 : dp.Partitions.foldl (fun acc part => add64 acc part.Size) 0 =
        (dp.Partitions.map types.Partition.Size).foldl add64 0 := by
      rw [List.foldl_map]
    simp only [h1, h2, foldl_sub64_eq _ dp.Size hsz]

/-! ## Helper lemmas: facade call traces

`Oracle.toUtil` emits exactly one event per facade call, and `Dryrun`
forwards `info`/`list` unchanged while its mutating methods emit nothing;
the lemmas below characterise the traces of the `GrowContainer` steps for
any facade with those per-call traces. -/

theorem toUtil_info_trace (o : Oracle) (id : String) :
    ((o.toUtil).info id).2 = [Event.info id] := rfl

theorem toUtil_list_trace (o : Oracle) (args : Option (List String)) :
    ((o.toUtil).list args).2 = [Event.list args] := rfl

theorem toUtil_repair_trace (o : Oracle) (id : String) :
    ((o.toUtil).repairDisk id).2 = [Event.repairDisk id] := rfl

theorem dryrun_info_eq (impl : DiskUtil) (id : String) :
    (Dryrun impl).info id = impl.info id := rfl

theorem dryrun_list_eq (impl : DiskUtil) (args : Option (List String)) :
    (Dryrun impl).list args = impl.list args := rfl

/-- The physical-resolution step performs no shell-out or exactly one
`Info` call. -/
theorem resolvePhy_trace (u : DiskUtil)
    (hu : ∀ id, (u.info id).2 = [Event.info id]) (c : types.DiskInfo) :
    (resolvePhy u c).2 = [] ∨ ∃ id, (resolvePhy u c).2 = [Event.info id] := by
  by_cases hphys : c.IsPhysical = true
  · left; simp [resolvePhy, hphys]
  · rcases h : u.info c.ParentWholeDisk with ⟨r, evs⟩
    have hevs : evs = [Event.info c.ParentWholeDisk] := by
      have h2 := hu c.ParentWholeDisk
      rw [h] at h2
      exact h2
    right
    refine ⟨c.ParentWholeDisk, ?_⟩
    cases r <;> simp [resolvePhy, hphys, h, hevs]

/-- The repair step performs no shell-out or exactly one `RepairDisk` call. -/
theorem repairParentDisk_trace (u : DiskUtil)
    (hu : ∀ id, (u.repairDisk id).2 = [Event.repairDisk id]) (d : types.DiskInfo) :
    (repairParentDisk u d).2 = [] ∨ ∃ id, (repairParentDisk u d).2 = [Event.repairDisk id] := by
  cases hpid : d.ParentDeviceID with
  | error e => left; simp [repairParentDisk, hpid]
  | ok parentDiskID =>
    rcases h : u.repairDisk parentDiskID with ⟨r, evs⟩
    have hevs : evs = [Event.repairDisk parentDiskID] := by
      have h2 := hu parentDiskID
      rw [h] at h2
      exact h2
    right
    refine ⟨parentDiskID, ?_⟩
    cases r with
    | ok out => simp [repairParentDisk, hpid, h, hevs]
    | error err =>
      by_cases hro : err.isReadOnly = true <;>
        simp [repairParentDisk, hpid, h, hevs, hro]

/-- Under dry-run, the repair step performs no shell-out at all. -/
theorem repairParentDisk_dryrun (impl : DiskUtil) (d : types.DiskInfo)
    (parentDiskID : String) (hpid : d.ParentDeviceID = .ok parentDiskID) :
    repairParentDisk (Dryrun impl) d = (.ok "", []) := by
  simp [repairParentDisk, hpid, Dryrun, GoErr.isReadOnly]

/-- The free-space step performs exactly one `List(nil)` call. -/
theorem getDiskFreeSpace_trace (u : DiskUtil)
    (hu : ∀ args, (u.list args).2 = [Event.list args]) (d : types.DiskInfo) :
    (getDiskFreeSpace u d).2 = [Event.list none] := by
  rcases h : u.list none with ⟨r, evs⟩
  have hevs : evs = [Event.list none] := by
    have h2 := hu none
    rw [h] at h2
    exact h2
  cases r with
  | error e => simp [getDiskFreeSpace, h, hevs]
  | ok partitions =>
    cases hpid : d.ParentDeviceID with
    | error e => simp [getDiskFreeSpace, h, hevs, hpid]
    | ok parentDiskID =>
      rcases havail : partitions.AvailableDiskSpace parentDiskID with ⟨size, err⟩
      cases err <;> simp [getDiskFreeSpace, h, hevs, hpid, havail]

/-- Once the container check, physical resolution, repair and free-space
computation have succeeded, `GrowContainer` reduces to the free-space gate
followed by the resize call. -/
theorem growContainer_gate_eq (u : DiskUtil) (c : types.DiskInfo)
    (phy : types.DiskInfo) (outR : String) (free : Nat)
    (t1 t2 t3 : List Event)
    (hcan : canAPFSResize (some c) = .ok ())
    (hphy : resolvePhy u c = (.ok phy, t1))
    (hrep : repairParentDisk u phy = (.ok outR, t2))
    (hfree : getDiskFreeSpace u phy = (.ok free, t3)) :
    GrowContainer u (some c) =
      if free < minimumGrowFreeSpace then
        (.error (.wrap "not enough space to resize container" (.freeSpace free)),
          t1 ++ t2 ++ t3)
      else
        match u.resizeContainer phy.DeviceIdentifier "0" with
        | (.ok _, t4) => (.ok (), t1 ++ t2 ++ t3 ++ t4)
        | (.error err, t4) =>
          if err.isReadOnly then (.ok (), t1 ++ t2 ++ t3 ++ t4)
          else (.error err, t1 ++ t2 ++ t3 ++ t4) := by
  simp only [GrowContainer, hcan, hphy, hrep, hfree]

/-- When the gate passes, the resize call (with size `"0"`, on the resolved
physical disk) appears in the trace, whatever the external tool answers. -/
theorem growContainer_resize_mem (o : Oracle) (c phy : types.DiskInfo)
    (outR : String) (free : Nat) (t1 t2 t3 : List Event)
    (hcan : canAPFSResize (some c) = .ok ())
    (hphy : resolvePhy o.toUtil c = (.ok phy, t1))
    (hrep : repairParentDisk o.toUtil phy = (.ok outR, t2))
    (hfree : getDiskFreeSpace o.toUtil phy = (.ok free, t3))
    (hge : minimumGrowFreeSpace ≤ free) :
    Event.resizeContainer phy.DeviceIdentifier "0" ∈ (GrowContainer o.toUtil (some c)).2 := by
  rw [growContainer_gate_eq o.toUtil c phy outR free t1 t2 t3 hcan hphy hrep hfree,
    if_neg (by omega)]
  have hz : o.toUtil.resizeContainer phy.DeviceIdentifier "0" =
      (o.resizeResult phy.DeviceIdentifier "0",
        [Event.resizeContainer phy.DeviceIdentifier "0"]) := rfl
  rw [hz]
  cases hres : o.resizeResult phy.DeviceIdentifier "0" with
  | ok out => simp [List.mem_append]
  | error err =>
    by_cases hro : err.isReadOnly = true <;> simp [hro, List.mem_append]

/-! ## Claim C2 -/

/-- Claim C2 (amended): for every `SystemPartitions` value and identifier
`id`, if some `DiskPart` in `AllDisksAndPartitions` case-insensitively
matches `id`, `AvailableDiskSpace id` returns — with no error — the first
such `DiskPart`'s `Size` minus the sum of its partitions' `Size`s computed
in `uint64` arithmetic (i.e. the difference reduced modulo 2^64, which
equals the exact difference whenever the partition sizes sum to at most the
disk size); if no `DiskPart` matches, it returns 0 together with an error. -/
theorem availableDiskSpace_spec (p : types.SystemPartitions) (id : String) :
    (p.AllDisksAndPartitions.find? (fun d => equalFold d.DeviceIdentifier id) = none →
      (p.AvailableDiskSpace id).1 = 0 ∧ (p.AvailableDiskSpace id).2.isSome) ∧
    (∀ dp, p.AllDisksAndPartitions.find? (fun d => equalFold d.DeviceIdentifier id) = some dp →
      (p.AvailableDiskSpace id).2 = none ∧
      ((p.AvailableDiskSpace id).1 : Int) =
        ((dp.Size : Int) - ((dp.Partitions.map types.Partition.Size).sum : Int)) %
          ((U64 : Nat) : Int) ∧
      ((dp.Partitions.map types.Partition.Size).sum ≤ dp.Size → dp.Size < U64 →
        (p.AvailableDiskSpace id).1 =
          dp.Size - (dp.Partitions.map types.Partition.Size).sum)) := by
  constructor
  · intro hfind
    simp [types.SystemPartitions.AvailableDiskSpace, hfind]
  · intro dp hfind
    have hval : p.AvailableDiskSpace id =
        (sub64 dp.Size ((dp.Partitions.map types.Partition.Size).foldl add64 0), none) := by
      simp [types.SystemPartitions.AvailableDiskSpace, hfind, List.foldl_map]
    refine ⟨by simp [hval], ?_, ?_⟩
    · rw [hval]
      have hmod := foldl_add64_mod (dp.Partitions.map types.Partition.Size) 0
      rw [sub64_cast]
      revert hmod
      generalize (dp.Partitions.map types.Partition.Size).foldl add64 0 = A
      generalize (dp.Partitions.map types.Partition.Size).sum = s
      intro hmod
      simp only [U64] at *
      omega
    · intro hle hlt
      rw [hval]
      have heq := foldl_add64_eq_sum (dp.Partitions.map types.Partition.Size) 0 (by omega)
      rw [heq, Nat.zero_add]
      exact sub64_exact _ _ hle hlt

/-- Claim C2, counterexample to the claim as stated: for a disk of size 0
carrying a partition of size 1, the code returns the wrapped value
2^64 - 1, not the mathematical difference 0 - 1 (which is negative, and 0
under truncated natural subtraction). -/
theorem availableDiskSpace_wrap_counterexample :
    (overflowParts.AvailableDiskSpace "disk0").1 = U64 - 1 ∧
    ((overflowParts.AvailableDiskSpace "disk0").1 : Int) ≠ (0 : Int) - 1 ∧
    (overflowParts.AvailableDiskSpace "disk0").1 ≠ (0 : Nat) - 1 := by
  refine ⟨by decide, by decide, by decide⟩

/-- Witness for `availableDiskSpace_spec`, at the spec's own P3 example:
disk "disk1" of size 2,000,000 with two 500,000-byte partitions yields
free space 1,000,000 and no error. -/
theorem availableDiskSpace_spec_witness :
    (sampleParts.AvailableDiskSpace "disk1").1 = 1000000 ∧
    (sampleParts.AvailableDiskSpace "disk1").2 = none := by
  have h := (availableDiskSpace_spec sampleParts "disk1").2 sampleDiskPart rfl
  refine ⟨?_, h.1⟩
  have hx := h.2.2 (by decide) (by decide)
  rw [hx]
  decide

/-! ## Claim C4 -/

/-- Claim C4: `GrowContainer` with a `nil` container fails immediately, and
for a non-nil container that is neither (a) carrying a non-zero embedded
`ContainerInfo` with filesystem type "apfs" nor (b) carrying a non-empty
APFS container reference together with at least one APFS physical store, it
fails with the not-resizable error before any facade operation happens (the
event trace is empty, for every facade). -/
theorem growContainer_eligibility_spec (u : DiskUtil) :
    GrowContainer u none = (.error (.msg "unable to resize nil container"), []) ∧
    (∀ c : types.DiskInfo,
      ¬(c.ContainerInfo ≠ ({} : types.ContainerInfo) ∧
          c.ContainerInfo.FilesystemType = "apfs") →
      ¬(c.APFSContainerReference ≠ "" ∧ 0 < c.APFSPhysicalStores.length) →
      GrowContainer u (some c) =
        (.error (.wrap "unable to resize container" (.msg "disk is not apfs")), [])) := by
  constructor
  · rfl
  · intro c h1 h2
    have hcan : canAPFSResize (some c) = .error (.msg "disk is not apfs") := by
      simp only [canAPFSResize, h1, h2, if_false]
    simp only [GrowContainer, hcan]

/-- Witness for `growContainer_eligibility_spec`: the zero-valued `DiskInfo`
is rejected with an empty trace under the end-to-end oracle's facade. -/
theorem growContainer_eligibility_spec_witness :
    GrowContainer sampleOracle.toUtil none =
      (.error (.msg "unable to resize nil container"), []) ∧
    GrowContainer sampleOracle.toUtil (some {}) =
      (.error (.wrap "unable to resize container" (.msg "disk is not apfs")), []) := by
  refine ⟨(growContainer_eligibility_spec sampleOracle.toUtil).1, ?_⟩
  exact (growContainer_eligibility_spec sampleOracle.toUtil).2 {} (by decide) (by decide)

/-! ## Claim C1 -/

/-- Claim C1: in every run of `GrowContainer` (over the base facade) that
reaches the free-space computation, a computed free space below the fixed
1,000,000-byte threshold makes `GrowContainer` return an error wrapping
`FreeSpaceError` carrying that free-space value, with no `ResizeContainer`
call in the trace; free space at or above the threshold leads to exactly
one `ResizeContainer` call, with size `"0"`; and the top-level command
`run` turns a `FreeSpaceError` result from `GrowContainer` into success
(`nil`, exit code 0) while propagating every other error. -/
theorem grow_free_space_gate_spec
    (o : Oracle) (c phy : types.DiskInfo) (outR : String) (free : Nat)
    (t1 t2 t3 : List Event)
    (hcan : canAPFSResize (some c) = .ok ())
    (hphy : resolvePhy o.toUtil c = (.ok phy, t1))
    (hrep : repairParentDisk o.toUtil phy = (.ok outR, t2))
    (hfree : getDiskFreeSpace o.toUtil phy = (.ok free, t3)) :
    (free < minimumGrowFreeSpace →
      (GrowContainer o.toUtil (some c)).1 =
        .error (.wrap "not enough space to resize container" (.freeSpace free)) ∧
      (GoErr.wrap "not enough space to resize container" (.freeSpace free)).asFreeSpace
        = some free ∧
      ∀ ev ∈ (GrowContainer o.toUtil (some c)).2, ev.isResize = false) ∧
    (minimumGrowFreeSpace ≤ free →
      (GrowContainer o.toUtil (some c)).2.countP Event.isResize = 1 ∧
      Event.resizeContainer phy.DeviceIdentifier "0" ∈ (GrowContainer o.toUtil (some c)).2) ∧
    (∀ (u : DiskUtil) (id : String) (di : types.DiskInfo) (tg : List Event) (e : GoErr),
      cmd.getTargetDiskInfo u id = (.ok di, tg) →
      (GrowContainer u (some di)).1 = .error e →
      (e.asFreeSpace.isSome = true → (cmd.run u id).1 = .ok ()) ∧
      (e.asFreeSpace = none → (cmd.run u id).1 = .error e)) := by
  have hgate := growContainer_gate_eq o.toUtil c phy outR free t1 t2 t3 hcan hphy hrep hfree
  have ht1 := resolvePhy_trace o.toUtil (toUtil_info_trace o) c
  rw [hphy] at ht1
  simp only at ht1
  have ht2 := repairParentDisk_trace o.toUtil (toUtil_repair_trace o) phy
  rw [hrep] at ht2
  simp only at ht2
  have ht3 := getDiskFreeSpace_trace o.toUtil (toUtil_list_trace o) phy
  rw [hfree] at ht3
  simp only at ht3
  subst ht3
  have hno1 : ∀ ev ∈ t1, ev.isResize = false := by
    rcases ht1 with rfl | ⟨id, rfl⟩ <;> intro ev hev <;> simp_all [Event.isResize]
  have hno2 : ∀ ev ∈ t2, ev.isResize = false := by
    rcases ht2 with rfl | ⟨id, rfl⟩ <;> intro ev hev <;> simp_all [Event.isResize]
  have hc1 : t1.countP Event.isResize = 0 :=
    List.countP_eq_zero.mpr (fun a ha => by simp [hno1 a ha])
  have hc2 : t2.countP Event.isResize = 0 :=
    List.countP_eq_zero.mpr (fun a ha => by simp [hno2 a ha])
  refine ⟨?_, ?_, ?_⟩
  · intro hlt
    rw [hgate, if_pos hlt]
    refine ⟨rfl, rfl, ?_⟩
    intro ev hev
    simp only [List.mem_append] at hev
    rcases hev with (hev | hev) | hev
    · exact hno1 ev hev
    · exact hno2 ev hev
    · simp only [List.mem_singleton] at hev
      subst hev
      rfl
  · intro hge
    rw [hgate, if_neg (by omega)]
    have hz : o.toUtil.resizeContainer phy.DeviceIdentifier "0" =
        (o.resizeResult phy.DeviceIdentifier "0",
          [Event.resizeContainer phy.DeviceIdentifier "0"]) := rfl
    rw [hz]
    cases hres : o.resizeResult phy.DeviceIdentifier "0" with
    | ok out =>
      simp [List.countP_append, List.countP_cons, hc1, hc2, Event.isResize]
    | error err =>
      by_cases hro : err.isReadOnly = true <;>
        simp [hro, List.countP_append, List.countP_cons, hc1, hc2, Event.isResize]
  · intro u id di tg e htgt hgrow
    rcases hg : GrowContainer u (some di) with ⟨rg, tg2⟩
    rw [hg] at hgrow
    simp only at hgrow
    subst hgrow
    constructor
    · intro hsome
      simp [cmd.run, htgt, hg, hsome]
    · intro hnone
      simp [cmd.run, htgt, hg, hnone]

/-- Witness for `grow_free_space_gate_spec`: the spec's §8 end-to-end
scenario resizes exactly once, and its quiet-exit scenario (free space
500,000 < 1,000,000) makes the top-level `run` exit successfully. -/
theorem grow_free_space_gate_spec_witness :
    (GrowContainer sampleOracle.toUtil (some sampleContainer)).2.countP Event.isResize = 1 ∧
    Event.resizeContainer "disk1" "0" ∈ (GrowContainer sampleOracle.toUtil (some sampleContainer)).2 ∧
    (cmd.run sampleSmallOracle.toUtil "disk1").1 = .ok () := by
  have h := grow_free_space_gate_spec sampleOracle sampleContainer sampleContainer "" 2000000
    [] [Event.repairDisk "disk0"] [Event.list none]
    rfl rfl rfl rfl
  have hmain := h.2.1 (by decide)
  refine ⟨hmain.1, hmain.2, ?_⟩
  have hrun := (h.2.2 sampleSmallOracle.toUtil "disk1" sampleContainer
    [Event.list none, Event.info "disk1"]
    (.wrap "not enough space to resize container" (.freeSpace 500000))
    rfl rfl).1 (by decide)
  exact hrun

/-! ## Claim C10 -/

/-- Claim C10 (amended): all disk and partition sizes are unsigned 64-bit
values, and `AvailableDiskSpace` subtracts the partition sizes with no
underflow guard.  For a matched `DiskPart` whose partitions' sizes sum to
more than its `Size`, the returned "free space" is the wrapped value
2^64 − ((Σ − S) mod 2^64) (reduced modulo 2^64), not a failure or zero;
it reaches or exceeds the 1,000,000-byte grow threshold — so
`GrowContainer` proceeds to invoke the resize — whenever the wrapped
deficit (Σ − S) mod 2^64 lies between 1 and 2^64 − 1,000,000 (for deficits
within 999,999 of a multiple of 2^64 the wrapped value lands below the
threshold instead). -/
theorem availableDiskSpace_wrap_spec (p : types.SystemPartitions) (id : String)
    (dp : types.DiskPart)
    (hfind : p.AllDisksAndPartitions.find? (fun d => equalFold d.DeviceIdentifier id) = some dp)
    (hover : dp.Size < (dp.Partitions.map types.Partition.Size).sum) :
    (p.AvailableDiskSpace id).2 = none ∧
    (p.AvailableDiskSpace id).1 =
      (U64 - ((dp.Partitions.map types.Partition.Size).sum - dp.Size) % U64) % U64 ∧
    (1 ≤ ((dp.Partitions.map types.Partition.Size).sum - dp.Size) % U64 →
      ((dp.Partitions.map types.Partition.Size).sum - dp.Size) % U64 ≤
        U64 - minimumGrowFreeSpace →
      minimumGrowFreeSpace ≤ (p.AvailableDiskSpace id).1) ∧
    (∀ (o : Oracle) (c phy : types.DiskInfo) (outR : String) (t1 t2 : List Event),
      canAPFSResize (some c) = .ok () →
      resolvePhy o.toUtil c = (.ok phy, t1) →
      repairParentDisk o.toUtil phy = (.ok outR, t2) →
      o.listResult none = .ok p →
      phy.ParentDeviceID = .ok id →
      minimumGrowFreeSpace ≤ (p.AvailableDiskSpace id).1 →
      Event.resizeContainer phy.DeviceIdentifier "0" ∈
        (GrowContainer o.toUtil (some c)).2) := by
  have hval : p.AvailableDiskSpace id =
      (sub64 dp.Size ((dp.Partitions.map types.Partition.Size).foldl add64 0), none) := by
    simp [types.SystemPartitions.AvailableDiskSpace, hfind, List.foldl_map]
  have hlt := foldl_add64_lt (dp.Partitions.map types.Partition.Size) 0 U64_pos
  have hmod := foldl_add64_mod (dp.Partitions.map types.Partition.Size) 0
  have hv1 : (p.AvailableDiskSpace id).1 =
      (U64 - ((dp.Partitions.map types.Partition.Size).sum - dp.Size) % U64) % U64 := by
    rw [hval]
    revert hlt hmod
    generalize (dp.Partitions.map types.Partition.Size).foldl add64 0 = A
    generalize hs : (dp.Partitions.map types.Partition.Size).sum = s
    rw [hs] at hover
    intro hlt hmod
    simp only [sub64, U64] at *
    omega
  refine ⟨by simp [hval], hv1, ?_, ?_⟩
  · intro hD1 hD2
    rw [hv1]
    revert hD1 hD2
    generalize (dp.Partitions.map types.Partition.Size).sum - dp.Size = D
    intro hD1 hD2
    simp only [U64, minimumGrowFreeSpace] at *
    omega
  · intro o c phy outR t1 t2 hcan hphy hrep hlist hpid hge
    have hl : o.toUtil.list none = (.ok p, [Event.list none]) := by
      show (o.listResult none, [Event.list none]) = _
      rw [hlist]
    have hfreeEq : getDiskFreeSpace o.toUtil phy =
        (.ok (sub64 dp.Size ((dp.Partitions.map types.Partition.Size).foldl add64 0)),
          [Event.list none]) := by
      simp only [getDiskFreeSpace, hl, hpid, hval]
    have hv2 : (p.AvailableDiskSpace id).1 =
        sub64 dp.Size ((dp.Partitions.map types.Partition.Size).foldl add64 0) := by
      rw [hval]
    rw [hv2] at hge
    exact growContainer_resize_mem o c phy outR _
      t1 t2 [Event.list none] hcan hphy hrep hfreeEq hge

/-- Claim C10, counterexample to the claim as stated: `nearWrapDiskPart`'s
partition sizes sum to more than its size, yet the wrapped free-space value
is 5 — neither enormous nor above the 1,000,000-byte threshold, so the grow
gate would reject it. -/
theorem availableDiskSpace_wrap_below_threshold :
    nearWrapDiskPart.Size <
      (nearWrapDiskPart.Partitions.map types.Partition.Size).sum ∧
    (nearWrapParts.AvailableDiskSpace "disk0").2 = none ∧
    (nearWrapParts.AvailableDiskSpace "disk0").1 = 5 ∧
    (nearWrapParts.AvailableDiskSpace "disk0").1 < minimumGrowFreeSpace := by
  refine ⟨by decide, by decide, by decide, by decide⟩

/-- Witness for `availableDiskSpace_wrap_spec`: the size-0 disk with a
2^63-byte partition wraps to free space 2^63, which passes the gate, and
`GrowContainer` over the corresponding oracle does reach the resize call. -/
theorem availableDiskSpace_wrap_spec_witness :
    (nearWrapParts.AvailableDiskSpace "disk0").1 = 5 ∧
    Event.resizeContainer "disk1" "0" ∈
      (GrowContainer hugeWrapOracle.toUtil (some sampleContainer)).2 := by
  have hnear := availableDiskSpace_wrap_spec nearWrapParts "disk0" nearWrapDiskPart
    rfl (by decide)
  have hhuge := availableDiskSpace_wrap_spec hugeWrapParts "disk0" hugeWrapDiskPart
    rfl (by decide)
  refine ⟨?_, ?_⟩
  · rw [hnear.2.1]; decide
  · exact hhuge.2.2.2 hugeWrapOracle sampleContainer sampleContainer ""
      [] [Event.repairDisk "disk0"] rfl rfl rfl rfl rfl
      (hhuge.2.2.1 (by decide) (by decide))

/-! ## Claim C3 -/

/-- `takeWhile` stops exactly at the boundary between a satisfying prefix
and a failing head. -/
theorem takeWhile_append_eq (P : Char → Bool) (ds rest : List Char)
    (hds : ∀ c ∈ ds, P c = true)
    (hrest : ∀ c cs, rest = c :: cs → P c = false) :
    (ds ++ rest).takeWhile P = ds := by
  induction ds with
  | nil =>
    cases rest with
    | nil => rfl
    | cons c cs => simp [List.takeWhile_cons, hrest c cs rfl]
  | cons a ds ih =>
    have ha := hds a (List.mem_cons_self a ds)
    simp only [List.cons_append, List.takeWhile_cons, ha, if_true]
    rw [ih (fun c hc => hds c (List.mem_cons_of_mem a hc))]

/-- The regex scan succeeds at the head of a string of the expected
`disk<digits><suffix>` shape and keeps exactly the digits. -/
theorem findDiskID_leading (ds rest : List Char)
    (hne : ds ≠ [])
    (hds : ∀ c ∈ ds, c.isDigit = true)
    (hrest : ∀ c cs, rest = c :: cs → c.isDigit = false) :
    types.findDiskID ⟨"disk".data ++ ds ++ rest⟩ = some ⟨"disk".data ++ ds⟩ := by
  have hd : "disk".data = ['d', 'i', 's', 'k'] := rfl
  have hm : types.matchDiskAt ('d' :: 'i' :: 's' :: 'k' :: (ds ++ rest)) =
      some (['d', 'i', 's', 'k'] ++ ds) := by
    rcases ds with _ | ⟨d0, ds'⟩
    · exact absurd rfl hne
    · have ht := takeWhile_append_eq Char.isDigit ds' rest
        (fun c hc => hds c (List.mem_cons_of_mem d0 hc)) hrest
      have hd0 := hds d0 (List.mem_cons_self d0 ds')
      simp [types.matchDiskAt, ht, hd0]
  have haux : types.findDiskIDAux ('d' :: 'i' :: 's' :: 'k' :: (ds ++ rest)) =
      some (['d', 'i', 's', 'k'] ++ ds) := by
    rw [show types.findDiskIDAux ('d' :: 'i' :: 's' :: 'k' :: (ds ++ rest)) =
        (match types.matchDiskAt ('d' :: 'i' :: 's' :: 'k' :: (ds ++ rest)) with
          | some m => some m
          | none => types.findDiskIDAux ('i' :: 's' :: 'k' :: (ds ++ rest))) from rfl, hm]
  unfold types.findDiskID
  rw [show (⟨"disk".data ++ ds ++ rest⟩ : String).data =
      'd' :: 'i' :: 's' :: 'k' :: (ds ++ rest) by simp [hd], haux]
  simp [hd]

/-- Claim C3: `ParentDeviceID` fails whenever the list of APFS physical
stores does not have exactly one entry; with exactly one entry of the form
`disk<digits><suffix>` it returns `disk<digits>` (the trailing partition
suffix stripped); and with one entry containing no `disk<digits>` substring
(the regex scan finds nothing) it fails. -/
theorem parentDeviceID_spec (d : types.DiskInfo) :
    (d.APFSPhysicalStores.length ≠ 1 → ∃ e, d.ParentDeviceID = .error e) ∧
    (∀ st, d.APFSPhysicalStores = [st] →
      (types.findDiskID st.DeviceIdentifier = none → ∃ e, d.ParentDeviceID = .error e) ∧
      (∀ ds rest, st.DeviceIdentifier = ⟨"disk".data ++ ds ++ rest⟩ →
        ds ≠ [] → (∀ c ∈ ds, c.isDigit = true) →
        (∀ c cs, rest = c :: cs → c.isDigit = false) →
        d.ParentDeviceID = .ok ⟨"disk".data ++ ds⟩)) := by
  constructor
  · intro hlen
    rcases hst : d.APFSPhysicalStores with _ | ⟨st, rest⟩
    · refine ⟨.msg "no physical stores found in disk", ?_⟩
      simp [types.DiskInfo.ParentDeviceID, hst]
    · rcases rest with _ | ⟨st2, rest2⟩
      · rw [hst] at hlen
        simp at hlen
      · refine ⟨.msg ("expected 1 physical store but got [" ++
          toString (st :: st2 :: rest2 : List types.APFSPhysicalStore).length ++ "]"), ?_⟩
        simp [types.DiskInfo.ParentDeviceID, hst]
  · intro st hst
    constructor
    · intro hnone
      refine ⟨.msg ("physical store [" ++ st.DeviceIdentifier ++
        "] does not contain the expected expression \"disk[0-9]+\""), ?_⟩
      simp [types.DiskInfo.ParentDeviceID, hst, hnone]
    · intro ds rest hdata hne hds hrest
      have hfind := findDiskID_leading ds rest hne hds hrest
      rw [← hdata] at hfind
      simp [types.DiskInfo.ParentDeviceID, hst, hfind]

/-- Witness for `parentDeviceID_spec`, at the spec's P4 example and the
source's own test cases: a single store "disk0s2" resolves to "disk0"; no
stores, two stores, and a single store "device0s2" (no `disk<digits>`
substring) all fail. -/
theorem parentDeviceID_spec_witness :
    sampleContainer.ParentDeviceID = .ok "disk0" ∧
    (∃ e, ({} : types.DiskInfo).ParentDeviceID = .error e) ∧
    (∃ e, twoStoreDisk.ParentDeviceID = .error e) ∧
    (∃ e, badStoreDisk.ParentDeviceID = .error e) := by
  refine ⟨?_, ?_, ?_, ?_⟩
  · have h := ((parentDeviceID_spec sampleContainer).2 { DeviceIdentifier := "disk0s2" }
      rfl).2 ['0'] "s2".data rfl (by decide) (by decide)
      (by
        intro c cs hcs
        rw [show "s2".data = ['s', '2'] from rfl] at hcs
        injection hcs with h1 h2
        subst h1
        decide)
    rw [h]
    rfl
  · exact (parentDeviceID_spec {}).1 (by decide)
  · exact (parentDeviceID_spec twoStoreDisk).1 (by decide)
  · exact ((parentDeviceID_spec badStoreDisk).2 { DeviceIdentifier := "device0s2" }
      rfl).1 (by decide)

/-! ## Claim C6 -/

/-- Case characterisation of `validateDeviceID`: blank ids, ids without a
`disk[0-9]+` device identifier, and ids whose extracted identifier is
unknown are each rejected; otherwise validation succeeds. -/
theorem validateDeviceID_spec (id : String) (parts : types.SystemPartitions) :
    (trimSpace id = "" →
      cmd.validateDeviceID id parts = .error (.msg "empty device id")) ∧
    (trimSpace id ≠ "" → identifier.ParseDiskID id = "" →
      cmd.validateDeviceID id parts =
        .error (.msg "id does not match the expected device identifier format")) ∧
    (trimSpace id ≠ "" → identifier.ParseDiskID id ≠ "" →
      (parts.AllDisks.any (fun name => equalFold name (identifier.ParseDiskID id)) = true →
        cmd.validateDeviceID id parts = .ok ()) ∧
      (parts.AllDisks.any (fun name => equalFold name (identifier.ParseDiskID id)) = false →
        cmd.validateDeviceID id parts = .error (.msg "invalid device identifier"))) := by
  refine ⟨?_, ?_, ?_⟩
  · intro h
    simp [cmd.validateDeviceID, h]
  · intro h1 h2
    simp [cmd.validateDeviceID, h1, h2]
  · intro h1 h2
    constructor <;> intro h3 <;> simp [cmd.validateDeviceID, h1, h2, h3]

/-- Claim C6: a target case-insensitively equal to "root" resolves directly
through `Info("/")` (the whole call, trace included, is that of `Info("/")`
— no listing happens); any other target first fetches `List(nil)`, whose
failure aborts; with a listing in hand, a blank target, a target without a
`disk[0-9]+` identifier, or an extracted identifier not case-insensitively
present in `AllDisks` each abort with an error; otherwise the result is
that of `Info(target)`. -/
theorem getTargetDiskInfo_spec (du : DiskUtil) (target : String) :
    (equalFold "root" target = true →
      cmd.getTargetDiskInfo du target = du.info "/") ∧
    (equalFold "root" target = false →
      (∀ e evs, du.list none = (.error e, evs) →
        (cmd.getTargetDiskInfo du target).1 =
          .error (.wrap "cannot list partitions" e)) ∧
      (∀ parts evs, du.list none = (.ok parts, evs) →
        (trimSpace target = "" →
          ∃ e, (cmd.getTargetDiskInfo du target).1 = .error e) ∧
        (identifier.ParseDiskID target = "" →
          ∃ e, (cmd.getTargetDiskInfo du target).1 = .error e) ∧
        ((∀ name ∈ parts.AllDisks,
            equalFold name (identifier.ParseDiskID target) = false) →
          ∃ e, (cmd.getTargetDiskInfo du target).1 = .error e) ∧
        (trimSpace target ≠ "" → identifier.ParseDiskID target ≠ "" →
          (∃ name, name ∈ parts.AllDisks ∧
            equalFold name (identifier.ParseDiskID target) = true) →
          cmd.getTargetDiskInfo du target =
            ((du.info target).1, evs ++ (du.info target).2)))) := by
  constructor
  · intro hroot
    simp [cmd.getTargetDiskInfo, hroot]
  · intro hroot
    constructor
    · intro e evs hlist
      simp [cmd.getTargetDiskInfo, hroot, hlist]
    · intro parts evs hlist
      have hv := validateDeviceID_spec target parts
      refine ⟨?_, ?_, ?_, ?_⟩
      · intro h
        refine ⟨.wrap "invalid target" (.msg "empty device id"), ?_⟩
        simp [cmd.getTargetDiskInfo, hroot, hlist, hv.1 h]
      · intro h
        by_cases htrim : trimSpace target = ""
        · refine ⟨.wrap "invalid target" (.msg "empty device id"), ?_⟩
          simp [cmd.getTargetDiskInfo, hroot, hlist, hv.1 htrim]
        · refine ⟨.wrap "invalid target"
            (.msg "id does not match the expected device identifier format"), ?_⟩
          simp [cmd.getTargetDiskInfo, hroot, hlist, hv.2.1 htrim h]
      · intro h
        have hany : parts.AllDisks.any
            (fun name => equalFold name (identifier.ParseDiskID target)) = false := by
          rw [List.any_eq_false]
          intro name hname
          simp [h name hname]
        by_cases htrim : trimSpace target = ""
        · refine ⟨.wrap "invalid target" (.msg "empty device id"), ?_⟩
          simp [cmd.getTargetDiskInfo, hroot, hlist, hv.1 htrim]
        · by_cases hparse : identifier.ParseDiskID target = ""
          · refine ⟨.wrap "invalid target"
              (.msg "id does not match the expected device identifier format"), ?_⟩
            simp [cmd.getTargetDiskInfo, hroot, hlist, hv.2.1 htrim hparse]
          · refine ⟨.wrap "invalid target" (.msg "invalid device identifier"), ?_⟩
            simp [cmd.getTargetDiskInfo, hroot, hlist,
              (hv.2.2 htrim hparse).2 hany]
      · intro htrim hparse hmem
        have hany : parts.AllDisks.any
            (fun name => equalFold name (identifier.ParseDiskID target)) = true := by
          rw [List.any_eq_true]
          rcases hmem with ⟨name, hname, heq⟩
          exact ⟨name, hname, heq⟩
        have hok := (hv.2.2 htrim hparse).1 hany
        simp [cmd.getTargetDiskInfo, hroot, hlist, hok]

/-- Witness for `getTargetDiskInfo_spec`: "ROOT" resolves via `Info("/")`
with no listing, "/dev/disk1" resolves through validation to `Info`, and
the unknown identifier "disk9" is rejected. -/
theorem getTargetDiskInfo_spec_witness :
    cmd.getTargetDiskInfo sampleOracle.toUtil "ROOT" =
      (.ok sampleContainer, [Event.info "/"]) ∧
    (cmd.getTargetDiskInfo sampleOracle.toUtil "/dev/disk1").1 = .ok sampleContainer ∧
    (∃ e, (cmd.getTargetDiskInfo sampleOracle.toUtil "disk9").1 = .error e) := by
  refine ⟨?_, ?_, ?_⟩
  · rw [(getTargetDiskInfo_spec sampleOracle.toUtil "ROOT").1 (by decide)]
    rfl
  · have h := (((getTargetDiskInfo_spec sampleOracle.toUtil "/dev/disk1").2
      (by decide)).2 sampleE2EParts [Event.list none] rfl).2.2.2
      (by decide) (by decide) ⟨"disk1", by decide, by decide⟩
    rw [h]
    rfl
  · exact (((getTargetDiskInfo_spec sampleOracle.toUtil "disk9").2
      (by decide)).2 sampleE2EParts [Event.list none] rfl).2.2.1 (by decide)

/-! ## Claim C5 -/

/-- Claim C5: the dry-run decorator never forwards `RepairDisk` or
`ResizeContainer` to the wrapped facade (their traces are empty) and each
returns an error wrapping `ErrReadOnly`; `Info` and `List` are forwarded
unchanged; and when the precondition and free-space checks pass,
`GrowContainer` over the dry-run facade recognises the read-only errors
from both mutating calls, completes without error, and its full trace
contains no `RepairDisk` or `ResizeContainer` event — no mutating
operation reaches the underlying facade. -/
theorem dryrun_spec :
    (∀ (impl : DiskUtil) (id : String),
      ∃ e, (Dryrun impl).repairDisk id = (.error e, []) ∧ e.isReadOnly = true) ∧
    (∀ (impl : DiskUtil) (id size : String),
      ∃ e, (Dryrun impl).resizeContainer id size = (.error e, []) ∧ e.isReadOnly = true) ∧
    (∀ (impl : DiskUtil) (id : String), (Dryrun impl).info id = impl.info id) ∧
    (∀ (impl : DiskUtil) (args : Option (List String)),
      (Dryrun impl).list args = impl.list args) ∧
    (∀ (o : Oracle) (c phy : types.DiskInfo) (parentID : String) (free : Nat)
      (t1 t3 : List Event),
      canAPFSResize (some c) = .ok () →
      resolvePhy (Dryrun o.toUtil) c = (.ok phy, t1) →
      phy.ParentDeviceID = .ok parentID →
      getDiskFreeSpace (Dryrun o.toUtil) phy = (.ok free, t3) →
      minimumGrowFreeSpace ≤ free →
      (GrowContainer (Dryrun o.toUtil) (some c)).1 = .ok () ∧
      (∀ id, Event.repairDisk id ∉ (GrowContainer (Dryrun o.toUtil) (some c)).2) ∧
      (∀ id sz, Event.resizeContainer id sz ∉ (GrowContainer (Dryrun o.toUtil) (some c)).2)) := by
  refine ⟨fun impl id => ⟨.wrap "skip repair disk" .readOnly, rfl, rfl⟩,
    fun impl id size => ⟨.wrap "skip resize container" .readOnly, rfl, rfl⟩,
    fun impl id => rfl, fun impl args => rfl, ?_⟩
  intro o c phy parentID free t1 t3 hcan hphy hpid hfree hge
  have hrep := repairParentDisk_dryrun o.toUtil phy parentID hpid
  have hgate := growContainer_gate_eq (Dryrun o.toUtil) c phy "" free t1 [] t3
    hcan hphy hrep hfree
  have hz : (Dryrun o.toUtil).resizeContainer phy.DeviceIdentifier "0" =
      (.error (.wrap "skip resize container" .readOnly), []) := rfl
  have hresult : GrowContainer (Dryrun o.toUtil) (some c) =
      (.ok (), t1 ++ [] ++ t3 ++ []) := by
    rw [hgate, if_neg (by omega), hz]
    rfl
  have ht1 := resolvePhy_trace (Dryrun o.toUtil) (fun id => rfl) c
  rw [hphy] at ht1
  simp only at ht1
  have ht3 := getDiskFreeSpace_trace (Dryrun o.toUtil) (fun args => rfl) phy
  rw [hfree] at ht3
  simp only at ht3
  subst ht3
  refine ⟨by rw [hresult], ?_, ?_⟩
  · intro id hmem
    rw [hresult] at hmem
    rcases ht1 with rfl | ⟨id2, rfl⟩ <;>
      · simp only [List.append_nil, List.mem_append] at hmem
        rcases hmem with hmem | hmem <;> simp at hmem
  · intro id sz hmem
    rw [hresult] at hmem
    rcases ht1 with rfl | ⟨id2, rfl⟩ <;>
      · simp only [List.append_nil, List.mem_append] at hmem
        rcases hmem with hmem | hmem <;> simp at hmem

/-- Witness for `dryrun_spec`: under the dry-run facade over the
end-to-end oracle, the whole decision path completes with only the `List`
shell-out in the trace, and the mutating methods report read-only errors
with empty traces. -/
theorem dryrun_spec_witness :
    (GrowContainer (Dryrun sampleOracle.toUtil) (some sampleContainer)).1 = .ok () ∧
    Event.repairDisk "disk0" ∉ (GrowContainer (Dryrun sampleOracle.toUtil) (some sampleContainer)).2 ∧
    Event.resizeContainer "disk1" "0" ∉
      (GrowContainer (Dryrun sampleOracle.toUtil) (some sampleContainer)).2 ∧
    (∃ e, (Dryrun sampleOracle.toUtil).repairDisk "disk0" = (.error e, []) ∧
      e.isReadOnly = true) ∧
    (∃ e, (Dryrun sampleOracle.toUtil).resizeContainer "disk1" "0" = (.error e, []) ∧
      e.isReadOnly = true) := by
  have h := dryrun_spec.2.2.2.2 sampleOracle sampleContainer sampleContainer "disk0"
    2000000 [] [Event.list none] rfl rfl rfl rfl (by decide)
  exact ⟨h.1, h.2.1 "disk0", h.2.2 "disk1" "0",
    dryrun_spec.1 sampleOracle.toUtil "disk0",
    dryrun_spec.2.1 sampleOracle.toUtil "disk1" "0"⟩

/-! ## Claim C7 -/

/-- Claim C7: for both decoder operations of `PlistDecoder`, and for every
behaviour of the underlying plist parser — an error result is never
accompanied by a non-nil record; when the parser leaves empty input at the
zero value and succeeds (the spec's documented library behaviour), decoding
empty input yields the zero-valued record with no error; a parser error on
malformed input yields a nil record together with an error; and a parser
panic is caught and converted into a returned decode error with a nil
record. -/
theorem plistDecoder_spec :
    (∀ (decode : String → PlistOutcome types.SystemPartitions) (input : String),
      ((PlistDecoderDecodeList decode input).2.isSome = true →
        (PlistDecoderDecodeList decode input).1 = none) ∧
      (decode "" = .ok {} → PlistDecoderDecodeList decode "" = (some {}, none)) ∧
      (∀ msg, decode input = .err msg →
        (PlistDecoderDecodeList decode input).1 = none ∧
        (PlistDecoderDecodeList decode input).2.isSome = true) ∧
      (∀ msg, decode input = .panicked msg →
        (PlistDecoderDecodeList decode input).1 = none ∧
        (PlistDecoderDecodeList decode input).2.isSome = true)) ∧
    (∀ (decode : String → PlistOutcome types.DiskInfo) (input : String),
      ((PlistDecoderDecodeInfo decode input).2.isSome = true →
        (PlistDecoderDecodeInfo decode input).1 = none) ∧
      (decode "" = .ok {} → PlistDecoderDecodeInfo decode "" = (some {}, none)) ∧
      (∀ msg, decode input = .err msg →
        (PlistDecoderDecodeInfo decode input).1 = none ∧
        (PlistDecoderDecodeInfo decode input).2.isSome = true) ∧
      (∀ msg, decode input = .panicked msg →
        (PlistDecoderDecodeInfo decode input).1 = none ∧
        (PlistDecoderDecodeInfo decode input).2.isSome = true)) := by
  constructor
  · intro decode input
    refine ⟨?_, ?_, ?_, ?_⟩
    · intro h
      cases hdec : decode input <;> simp [PlistDecoderDecodeList, hdec] at h ⊢
    · intro h
      simp [PlistDecoderDecodeList, h]
    · intro msg h
      simp [PlistDecoderDecodeList, h]
    · intro msg h
      simp [PlistDecoderDecodeList, h]
  · intro decode input
    refine ⟨?_, ?_, ?_, ?_⟩
    · intro h
      cases hdec : decode input <;> simp [PlistDecoderDecodeInfo, hdec] at h ⊢
    · intro h
      simp [PlistDecoderDecodeInfo, h]
    · intro msg h
      simp [PlistDecoderDecodeInfo, h]
    · intro msg h
      simp [PlistDecoderDecodeInfo, h]

/-- Witness for `plistDecoder_spec`: over a parser model matching the
spec's library behaviour, empty input decodes to the zero record for both
operations, the test suite's garbage input fails with a nil record, and a
panicking input is converted into an error with a nil record. -/
theorem plistDecoder_spec_witness :
    PlistDecoderDecodeList plistDecodeListModel "" = (some {}, none) ∧
    PlistDecoderDecodeInfo plistDecodeInfoModel "" = (some {}, none) ∧
    (PlistDecoderDecodeList plistDecodeListModel "abcdefghijklmnopqrstuvwxyz").1 = none ∧
    (PlistDecoderDecodeList plistDecodeListModel "abcdefghijklmnopqrstuvwxyz").2.isSome = true ∧
    (PlistDecoderDecodeInfo plistDecodeInfoModel "panic").1 = none ∧
    (PlistDecoderDecodeInfo plistDecodeInfoModel "panic").2.isSome = true := by
  have hgarbage := (plistDecoder_spec.1 plistDecodeListModel
    "abcdefghijklmnopqrstuvwxyz").2.2.1 "invalid property list" rfl
  have hpanic := (plistDecoder_spec.2 plistDecodeInfoModel "panic").2.2.2 "boom" rfl
  exact ⟨(plistDecoder_spec.1 plistDecodeListModel "").2.1 rfl,
    (plistDecoder_spec.2 plistDecodeInfoModel "").2.1 rfl,
    hgarbage.1, hgarbage.2, hpanic.1, hpanic.2⟩

/-! ## Claim C9 -/

/-- Claim C9: the Mojave facade variant decodes the primary structured
output first and then attempts the physical-store backfill; a failing
primary decode yields a nil record with the error, while a failing backfill
yields the error together with the (partially updated) non-nil decoded
record, so the primary data is not lost; the newer variants (Catalina
through Sequoia) return the decoded record as-is with no backfill step. -/
theorem mojave_backfill_spec :
    (∀ (fetch : String → Except GoErr String) (e : GoErr),
      diskutilMojaveList (.error e) fetch = (none, some e)) ∧
    (∀ fetch parts parts2 e,
      updatePhysicalStores fetch parts = (parts2, some e) →
      diskutilMojaveList (.ok parts) fetch = (some parts2, some e)) ∧
    (∀ fetch parts parts2,
      updatePhysicalStores fetch parts = (parts2, none) →
      diskutilMojaveList (.ok parts) fetch = (some parts2, none)) ∧
    (∀ (fetch : String → Except GoErr String) (e : GoErr),
      diskutilMojaveInfo (.error e) fetch = (none, some e)) ∧
    (∀ fetch disk disk2 e,
      updatePhysicalStore fetch disk = (disk2, some e) →
      diskutilMojaveInfo (.ok disk) fetch = (some disk2, some e)) ∧
    (∀ fetch disk disk2,
      updatePhysicalStore fetch disk = (disk2, none) →
      diskutilMojaveInfo (.ok disk) fetch = (some disk2, none)) ∧
    (∀ (parts : types.SystemPartitions) (e : GoErr),
      diskutilCatalinaList (.ok parts) = (some parts, none) ∧
      diskutilCatalinaList (.error e) = (none, some e)) ∧
    (∀ (disk : types.DiskInfo) (e : GoErr),
      diskutilCatalinaInfo (.ok disk) = (some disk, none) ∧
      diskutilCatalinaInfo (.error e) = (none, some e)) := by
  refine ⟨fun fetch e => rfl, ?_, ?_, fun fetch e => rfl, ?_, ?_,
    fun parts e => ⟨rfl, rfl⟩, fun disk e => ⟨rfl, rfl⟩⟩
  · intro fetch parts parts2 e h
    simp [diskutilMojaveList, h]
  · intro fetch parts parts2 h
    simp [diskutilMojaveList, h]
  · intro fetch disk disk2 e h
    simp [diskutilMojaveInfo, h]
  · intro fetch disk disk2 h
    simp [diskutilMojaveInfo, h]

/-- Witness for `mojave_backfill_spec`: with a listing containing one APFS
entry and a failing physical-store fetch, the Mojave `List`/`Info` return
the decoded record together with the error; the Catalina variant passes the
record through untouched. -/
theorem mojave_backfill_spec_witness :
    diskutilMojaveList (.error (.msg "boom")) fetchFail = (none, some (.msg "boom")) ∧
    diskutilMojaveList (.ok mojaveParts) fetchFail =
      (some mojaveParts, some (.msg "physical store not found")) ∧
    diskutilMojaveInfo (.ok sampleContainer) fetchFail =
      (some sampleContainer, some (.msg "physical store not found")) ∧
    diskutilCatalinaList (.ok mojaveParts) = (some mojaveParts, none) := by
  refine ⟨mojave_backfill_spec.1 fetchFail (.msg "boom"), ?_, ?_, ?_⟩
  · exact mojave_backfill_spec.2.1 fetchFail mojaveParts mojaveParts
      (.msg "physical store not found") rfl
  · exact mojave_backfill_spec.2.2.2.2.1 fetchFail sampleContainer sampleContainer
      (.msg "physical store not found") rfl
  · exact (mojave_backfill_spec.2.2.2.2.2.2.1 mojaveParts (.msg "boom")).1

/-! ## Claim C8 -/

/-- Exhaustive case analysis of a `GrowContainer` run over the base facade:
every execution falls into one of six cases — early rejection with an empty
trace, failure at the physical resolution, at the repair, or at the
free-space computation (each with the trace truncated at the failing step),
gate rejection, or a full run ending in the single resize call. -/
theorem growContainer_cases (o : Oracle) (container : Option types.DiskInfo) :
    ((GrowContainer o.toUtil container).2 = [] ∧
      (container = none ∨
        ∃ c e, container = some c ∧ canAPFSResize (some c) = .error e)) ∨
    (∃ c e, container = some c ∧ canAPFSResize (some c) = .ok () ∧
      (resolvePhy o.toUtil c).1 = .error e ∧
      (GrowContainer o.toUtil container).2 = (resolvePhy o.toUtil c).2) ∨
    (∃ c phy e, container = some c ∧ canAPFSResize (some c) = .ok () ∧
      (resolvePhy o.toUtil c).1 = .ok phy ∧
      (repairParentDisk o.toUtil phy).1 = .error e ∧
      (GrowContainer o.toUtil container).2 =
        (resolvePhy o.toUtil c).2 ++ (repairParentDisk o.toUtil phy).2) ∨
    (∃ c phy outR e, container = some c ∧ canAPFSResize (some c) = .ok () ∧
      (resolvePhy o.toUtil c).1 = .ok phy ∧
      (repairParentDisk o.toUtil phy).1 = .ok outR ∧
      (getDiskFreeSpace o.toUtil phy).1 = .error e ∧
      (GrowContainer o.toUtil container).2 =
        (resolvePhy o.toUtil c).2 ++ (repairParentDisk o.toUtil phy).2 ++
          (getDiskFreeSpace o.toUtil phy).2) ∨
    (∃ c phy outR free, container = some c ∧ canAPFSResize (some c) = .ok () ∧
      (resolvePhy o.toUtil c).1 = .ok phy ∧
      (repairParentDisk o.toUtil phy).1 = .ok outR ∧
      (getDiskFreeSpace o.toUtil phy).1 = .ok free ∧
      free < minimumGrowFreeSpace ∧
      (GrowContainer o.toUtil container).2 =
        (resolvePhy o.toUtil c).2 ++ (repairParentDisk o.toUtil phy).2 ++
          (getDiskFreeSpace o.toUtil phy).2) ∨
    (∃ c phy outR free, container = some c ∧ canAPFSResize (some c) = .ok () ∧
      (resolvePhy o.toUtil c).1 = .ok phy ∧
      (repairParentDisk o.toUtil phy).1 = .ok outR ∧
      (getDiskFreeSpace o.toUtil phy).1 = .ok free ∧
      minimumGrowFreeSpace ≤ free ∧
      (GrowContainer o.toUtil container).2 =
        (resolvePhy o.toUtil c).2 ++ (repairParentDisk o.toUtil phy).2 ++
          (getDiskFreeSpace o.toUtil phy).2 ++
          [Event.resizeContainer phy.DeviceIdentifier "0"]) := by
  rcases container with _ | c
  · exact Or.inl ⟨rfl, Or.inl rfl⟩
  · rcases hcan : canAPFSResize (some c) with e | u
    · refine Or.inl ⟨?_, Or.inr ⟨c, e, rfl, hcan⟩⟩
      simp [GrowContainer, hcan]
    · cases u
      rcases hr : resolvePhy o.toUtil c with ⟨r1, t1⟩
      cases r1 with
      | error e1 =>
        refine Or.inr (Or.inl ⟨c, e1, rfl, hcan, by rw [hr], ?_⟩)
        simp [GrowContainer, hcan, hr]
      | ok phy =>
        rcases hrep : repairParentDisk o.toUtil phy with ⟨r2, t2⟩
        cases r2 with
        | error e2 =>
          refine Or.inr (Or.inr (Or.inl
            ⟨c, phy, e2, rfl, hcan, by rw [hr], by rw [hrep], ?_⟩))
          simp [GrowContainer, hcan, hr, hrep]
        | ok outR =>
          rcases hfr : getDiskFreeSpace o.toUtil phy with ⟨r3, t3⟩
          cases r3 with
          | error e3 =>
            refine Or.inr (Or.inr (Or.inr (Or.inl
              ⟨c, phy, outR, e3, rfl, hcan, by rw [hr], by rw [hrep], by rw [hfr], ?_⟩)))
            simp [GrowContainer, hcan, hr, hrep, hfr]
          | ok free =>
            by_cases hlt : free < minimumGrowFreeSpace
            · refine Or.inr (Or.inr (Or.inr (Or.inr (Or.inl
                ⟨c, phy, outR, free, rfl, hcan, by rw [hr], by rw [hrep], by rw [hfr],
                  hlt, ?_⟩))))
              simp [GrowContainer, hcan, hr, hrep, hfr, hlt]
            · refine Or.inr (Or.inr (Or.inr (Or.inr (Or.inr
                ⟨c, phy, outR, free, rfl, hcan, by rw [hr], by rw [hrep], by rw [hfr],
                  by omega, ?_⟩))))
              have hz : o.toUtil.resizeContainer phy.DeviceIdentifier "0" =
                  (o.resizeResult phy.DeviceIdentifier "0",
                    [Event.resizeContainer phy.DeviceIdentifier "0"]) := rfl
              simp only [GrowContainer, hcan, hr, hrep, hfr, if_neg hlt, hz]
              cases hzz : o.resizeResult phy.DeviceIdentifier "0" with
              | ok out => simp
              | error err =>
                by_cases hro : err.isReadOnly = true <;> simp [hro]

/-- Claim C8: over the base facade, the shell-outs of any `GrowContainer`
run occur in the fixed order `Info ≤ RepairDisk ≤ List ≤ ResizeContainer`
with each step at most once and no retries (the trace's kinds form a
sublist of that canonical sequence, so in particular the repair precedes
the free-space `List` and the `List` precedes the resize); a
`ResizeContainer` call appears only after the physical resolution, the
repair, and the free-space computation all succeeded and the gate passed,
and it targets the resolved disk with size `"0"`; and a failure at the
resolution, repair, or free-space step cuts the trace there, so no later
facade operation occurs. -/
theorem growContainer_ordering_spec (o : Oracle) (container : Option types.DiskInfo) :
    (((GrowContainer o.toUtil container).2.map Event.kind).Sublist
      [EventKind.info, EventKind.repairDisk, EventKind.list, EventKind.resizeContainer]) ∧
    (∀ id sz, Event.resizeContainer id sz ∈ (GrowContainer o.toUtil container).2 →
      ∃ c phy outR free, container = some c ∧ canAPFSResize (some c) = .ok () ∧
        (resolvePhy o.toUtil c).1 = .ok phy ∧
        (repairParentDisk o.toUtil phy).1 = .ok outR ∧
        (getDiskFreeSpace o.toUtil phy).1 = .ok free ∧
        minimumGrowFreeSpace ≤ free ∧
        id = phy.DeviceIdentifier ∧ sz = "0") ∧
    (∀ c, container = some c → canAPFSResize (some c) = .ok () →
      (∀ e, (resolvePhy o.toUtil c).1 = .error e →
        (GrowContainer o.toUtil container).2 = (resolvePhy o.toUtil c).2) ∧
      (∀ phy, (resolvePhy o.toUtil c).1 = .ok phy →
        (∀ e, (repairParentDisk o.toUtil phy).1 = .error e →
          (∀ args, Event.list args ∉ (GrowContainer o.toUtil container).2) ∧
          (∀ id sz,
            Event.resizeContainer id sz ∉ (GrowContainer o.toUtil container).2)) ∧
        (∀ outR, (repairParentDisk o.toUtil phy).1 = .ok outR →
          ∀ e, (getDiskFreeSpace o.toUtil phy).1 = .error e →
            ∀ id sz,
              Event.resizeContainer id sz ∉ (GrowContainer o.toUtil container).2))) := by
  have hm := growContainer_cases o container
  refine ⟨?_, ?_, ?_⟩
  · rcases hm with ⟨htr, _⟩ |
      ⟨c, e, hcont, hcan, hres, htr⟩ |
      ⟨c, phy, e, hcont, hcan, hres, hrep, htr⟩ |
      ⟨c, phy, outR, e, hcont, hcan, hres, hrep, hfr, htr⟩ |
      ⟨c, phy, outR, free, hcont, hcan, hres, hrep, hfr, hlt, htr⟩ |
      ⟨c, phy, outR, free, hcont, hcan, hres, hrep, hfr, hge, htr⟩
    · rw [htr]; decide
    · rw [htr]
      rcases resolvePhy_trace o.toUtil (toUtil_info_trace o) c with h1 | ⟨i1, h1⟩ <;>
        rw [h1] <;>
        simp only [List.map_cons, List.map_nil, Event.kind] <;> decide
    · rw [htr]
      rcases resolvePhy_trace o.toUtil (toUtil_info_trace o) c with h1 | ⟨i1, h1⟩ <;>
        rcases repairParentDisk_trace o.toUtil (toUtil_repair_trace o) phy with h2 | ⟨i2, h2⟩ <;>
        rw [h1, h2] <;>
        simp only [List.map_append, List.map_cons, List.map_nil, Event.kind,
          List.append_nil, List.nil_append] <;> decide
    · rw [htr, getDiskFreeSpace_trace o.toUtil (toUtil_list_trace o) phy]
      rcases resolvePhy_trace o.toUtil (toUtil_info_trace o) c with h1 | ⟨i1, h1⟩ <;>
        rcases repairParentDisk_trace o.toUtil (toUtil_repair_trace o) phy with h2 | ⟨i2, h2⟩ <;>
        rw [h1, h2] <;>
        simp only [List.map_append, List.map_cons, List.map_nil, Event.kind,
          List.append_nil, List.nil_append] <;> decide
    · rw [htr, getDiskFreeSpace_trace o.toUtil (toUtil_list_trace o) phy]
      rcases resolvePhy_trace o.toUtil (toUtil_info_trace o) c with h1 | ⟨i1, h1⟩ <;>
        rcases repairParentDisk_trace o.toUtil (toUtil_repair_trace o) phy with h2 | ⟨i2, h2⟩ <;>
        rw [h1, h2] <;>
        simp only [List.map_append, List.map_cons, List.map_nil, Event.kind,
          List.append_nil, List.nil_append] <;> decide
    · rw [htr, getDiskFreeSpace_trace o.toUtil (toUtil_list_trace o) phy]
      rcases resolvePhy_trace o.toUtil (toUtil_info_trace o) c with h1 | ⟨i1, h1⟩ <;>
        rcases repairParentDisk_trace o.toUtil (toUtil_repair_trace o) phy with h2 | ⟨i2, h2⟩ <;>
        rw [h1, h2] <;>
        simp only [List.map_append, List.map_cons, List.map_nil, Event.kind,
          List.append_nil, List.nil_append] <;> decide
  · intro id sz hmem
    rcases hm with ⟨htr, _⟩ |
      ⟨c, e, hcont, hcan, hres, htr⟩ |
      ⟨c, phy, e, hcont, hcan, hres, hrep, htr⟩ |
      ⟨c, phy, outR, e, hcont, hcan, hres, hrep, hfr, htr⟩ |
      ⟨c, phy, outR, free, hcont, hcan, hres, hrep, hfr, hlt, htr⟩ |
      ⟨c, phy, outR, free, hcont, hcan, hres, hrep, hfr, hge, htr⟩
    · rw [htr] at hmem
      simp at hmem
    · rw [htr] at hmem
      rcases resolvePhy_trace o.toUtil (toUtil_info_trace o) c with h1 | ⟨i1, h1⟩ <;>
        rw [h1] at hmem <;> simp at hmem
    · rw [htr] at hmem
      rcases resolvePhy_trace o.toUtil (toUtil_info_trace o) c with h1 | ⟨i1, h1⟩ <;>
        rcases repairParentDisk_trace o.toUtil (toUtil_repair_trace o) phy with h2 | ⟨i2, h2⟩ <;>
        rw [h1, h2] at hmem <;> simp at hmem
    · rw [htr, getDiskFreeSpace_trace o.toUtil (toUtil_list_trace o) phy] at hmem
      rcases resolvePhy_trace o.toUtil (toUtil_info_trace o) c with h1 | ⟨i1, h1⟩ <;>
        rcases repairParentDisk_trace o.toUtil (toUtil_repair_trace o) phy with h2 | ⟨i2, h2⟩ <;>
        rw [h1, h2] at hmem <;> simp at hmem
    · rw [htr, getDiskFreeSpace_trace o.toUtil (toUtil_list_trace o) phy] at hmem
      rcases resolvePhy_trace o.toUtil (toUtil_info_trace o) c with h1 | ⟨i1, h1⟩ <;>
        rcases repairParentDisk_trace o.toUtil (toUtil_repair_trace o) phy with h2 | ⟨i2, h2⟩ <;>
        rw [h1, h2] at hmem <;> simp at hmem
    · rw [htr, getDiskFreeSpace_trace o.toUtil (toUtil_list_trace o) phy] at hmem
      have hout : id = phy.DeviceIdentifier ∧ sz = "0" := by
        rcases resolvePhy_trace o.toUtil (toUtil_info_trace o) c with h1 | ⟨i1, h1⟩ <;>
          rcases repairParentDisk_trace o.toUtil (toUtil_repair_trace o) phy with h2 | ⟨i2, h2⟩ <;>
          rw [h1, h2] at hmem <;> simpa using hmem
      exact ⟨c, phy, outR, free, hcont, hcan, hres, hrep, hfr, hge, hout.1, hout.2⟩
  · intro c0 hcont0 hcan0
    constructor
    · intro e0 hres0
      rcases hm with ⟨htr, hd⟩ |
        ⟨c, e, hcont, hcan, hres, htr⟩ |
        ⟨c, phy, e, hcont, hcan, hres, hrep, htr⟩ |
        ⟨c, phy, outR, e, hcont, hcan, hres, hrep, hfr, htr⟩ |
        ⟨c, phy, outR, free, hcont, hcan, hres, hrep, hfr, hlt, htr⟩ |
        ⟨c, phy, outR, free, hcont, hcan, hres, hrep, hfr, hge, htr⟩
      · rcases hd with hnone | ⟨c, e, hcont, hcan⟩
        · rw [hcont0] at hnone
          cases hnone
        · have hc := (hcont0.symm.trans hcont)
          injection hc with hc
          subst hc
          rw [hcan0] at hcan
          cases hcan
      all_goals {
        have hc := (hcont0.symm.trans hcont)
        injection hc with hc
        subst hc
        first
          | exact htr
          | (rw [hres0] at hres; cases hres)
      }
    · intro phy0 hphy0
      constructor
      · intro e0 hrep0
        rcases hm with ⟨htr, hd⟩ |
          ⟨c, e, hcont, hcan, hres, htr⟩ |
          ⟨c, phy, e, hcont, hcan, hres, hrep, htr⟩ |
          ⟨c, phy, outR, e, hcont, hcan, hres, hrep, hfr, htr⟩ |
          ⟨c, phy, outR, free, hcont, hcan, hres, hrep, hfr, hlt, htr⟩ |
          ⟨c, phy, outR, free, hcont, hcan, hres, hrep, hfr, hge, htr⟩
        · rcases hd with hnone | ⟨c, e, hcont, hcan⟩
          · rw [hcont0] at hnone
            cases hnone
          · have hc := (hcont0.symm.trans hcont)
            injection hc with hc
            subst hc
            rw [hcan0] at hcan
            cases hcan
        · have hc := (hcont0.symm.trans hcont)
          injection hc with hc
          subst hc
          rw [hphy0] at hres
          cases hres
        · have hc := (hcont0.symm.trans hcont)
          injection hc with hc
          subst hc
          have hp := (hphy0.symm.trans hres)
          injection hp with hp
          subst hp
          constructor
          · intro args hmem
            rw [htr] at hmem
            rcases resolvePhy_trace o.toUtil (toUtil_info_trace o) c0 with h1 | ⟨i1, h1⟩ <;>
              rcases repairParentDisk_trace o.toUtil (toUtil_repair_trace o) phy0
                with h2 | ⟨i2, h2⟩ <;>
              rw [h1, h2] at hmem <;> simp at hmem
          · intro id sz hmem
            rw [htr] at hmem
            rcases resolvePhy_trace o.toUtil (toUtil_info_trace o) c0 with h1 | ⟨i1, h1⟩ <;>
              rcases repairParentDisk_trace o.toUtil (toUtil_repair_trace o) phy0
                with h2 | ⟨i2, h2⟩ <;>
              rw [h1, h2] at hmem <;> simp at hmem
        all_goals {
          have hc := (hcont0.symm.trans hcont)
          injection hc with hc
          subst hc
          have hp := (hphy0.symm.trans hres)
          injection hp with hp
          subst hp
          rw [hrep0] at hrep
          cases hrep
        }
      · intro outR0 hrep0 e0 hfr0 id sz hmem
        rcases hm with ⟨htr, hd⟩ |
          ⟨c, e, hcont, hcan, hres, htr⟩ |
          ⟨c, phy, e, hcont, hcan, hres, hrep, htr⟩ |
          ⟨c, phy, outR, e, hcont, hcan, hres, hrep, hfr, htr⟩ |
          ⟨c, phy, outR, free, hcont, hcan, hres, hrep, hfr, hlt, htr⟩ |
          ⟨c, phy, outR, free, hcont, hcan, hres, hrep, hfr, hge, htr⟩
        · rcases hd with hnone | ⟨c, e, hcont, hcan⟩
          · rw [hcont0] at hnone
            cases hnone
          · have hc := (hcont0.symm.trans hcont)
            injection hc with hc
            subst hc
            rw [hcan0] at hcan
            cases hcan
        · have hc := (hcont0.symm.trans hcont)
          injection hc with hc
          subst hc
          rw [hphy0] at hres
          cases hres
        · have hc := (hcont0.symm.trans hcont)
          injection hc with hc
          subst hc
          have hp := (hphy0.symm.trans hres)
          injection hp with hp
          subst hp
          rw [hrep0] at hrep
          cases hrep
        · have hc := (hcont0.symm.trans hcont)
          injection hc with hc
          subst hc
          have hp := (hphy0.symm.trans hres)
          injection hp with hp
          subst hp
          rw [htr, getDiskFreeSpace_trace o.toUtil (toUtil_list_trace o) phy0] at hmem
          rcases resolvePhy_trace o.toUtil (toUtil_info_trace o) c0 with h1 | ⟨i1, h1⟩ <;>
            rcases repairParentDisk_trace o.toUtil (toUtil_repair_trace o) phy0
              with h2 | ⟨i2, h2⟩ <;>
            rw [h1, h2] at hmem <;> simp at hmem
        all_goals {
          have hc := (hcont0.symm.trans hcont)
          injection hc with hc
          subst hc
          have hp := (hphy0.symm.trans hres)
          injection hp with hp
          subst hp
          rw [hfr0] at hfr
          cases hfr
        }

/-- Witness for `growContainer_ordering_spec`: the end-to-end run's trace
kinds follow the canonical order; its resize event certifies the gate facts;
and over an oracle whose `List` fails, no resize call is reached. -/
theorem growContainer_ordering_spec_witness :
    (((GrowContainer sampleOracle.toUtil (some sampleContainer)).2.map Event.kind).Sublist
      [EventKind.info, EventKind.repairDisk, EventKind.list, EventKind.resizeContainer]) ∧
    (∃ c phy outR free, (some sampleContainer : Option types.DiskInfo) = some c ∧
      canAPFSResize (some c) = .ok () ∧
      (resolvePhy sampleOracle.toUtil c).1 = .ok phy ∧
      (repairParentDisk sampleOracle.toUtil phy).1 = .ok outR ∧
      (getDiskFreeSpace sampleOracle.toUtil phy).1 = .ok free ∧
      minimumGrowFreeSpace ≤ free ∧
      "disk1" = phy.DeviceIdentifier ∧ "0" = "0") ∧
    Event.resizeContainer "disk1" "0" ∉
      (GrowContainer failListOracle.toUtil (some sampleContainer)).2 := by
  refine ⟨(growContainer_ordering_spec sampleOracle (some sampleContainer)).1,
    (growContainer_ordering_spec sampleOracle (some sampleContainer)).2.1 "disk1" "0"
      (by decide), ?_⟩
  exact (((growContainer_ordering_spec failListOracle
      (some sampleContainer)).2.2 sampleContainer rfl rfl).2 sampleContainer rfl).2
    "" rfl (.msg "list failed") rfl "disk1" "0"

end EC2MacOSUtils
